import Mathlib

/-!
Verification development for the DocumentAnalyzer repository.

The JavaScript sources are shallowly embedded over `List Char` texts:

* JS strings become `List Char` (built with `txt`), `String.prototype.includes`
  becomes `containsSub`, `toLowerCase`/`toUpperCase` become `lowerStr`/`upperStr`.
* JS regular expressions become terms of the `Rx.RE` datatype; `RegExp.test`
  (which looks for a match anywhere in the string) becomes `Rx.rtest`, and the
  `/i` flag becomes `Rx.itest` (matching against the lower-cased text, with the
  pattern written in lower case).
* Scores are `ℤ` or `ℚ`; `Math.round` is the Mathlib `round` on `ℚ`
  (both compute `⌊x + 1/2⌋`).  JS float arithmetic is modelled as exact
  rational arithmetic: for the fractions these analyzers produce (small
  integer counts divided by table sizes of at most 7) the IEEE double result
  rounds to the same integer, since no value falls on a half-integer boundary.
* `new Date()` is modelled by an explicit `now : Nat` parameter measured in
  days (a day-granularity JS time value); MM/DD/YYYY date strings are given a
  day number by `jsDateValue`, which reproduces both the validation of the JS
  date parser (month 1–12, day 1–31, else Invalid Date) and the day rollover
  of JS `MakeDay` for in-range days past the end of the month.
-/

/-- Text of a string literal as a list of characters. -/
def txt (s : String) : List Char :=
  s.data

/-- JS `toLowerCase` (ASCII, which covers every string used by the sources). -/
def lowerStr (s : List Char) : List Char :=
  s.map Char.toLower

/-- JS `toUpperCase` (ASCII). -/
def upperStr (s : List Char) : List Char :=
  s.map Char.toUpper

/-- Does `p` occur at the very start of `s`? (helper for `containsSub`). -/
def beginsWith : List Char → List Char → Bool
  | _, [] => true
  | [], _ :: _ => false
  | c :: cs, d :: ds => c == d && beginsWith cs ds

/-- JS `String.prototype.includes`: `containsSub hay needle`. -/
def containsSub : List Char → List Char → Bool
  | [], nd => beginsWith [] nd
  | c :: cs, nd => beginsWith (c :: cs) nd || containsSub cs nd

theorem beginsWith_append (v b : List Char) : beginsWith (v ++ b) v = true := by
  induction v with
  | nil => simp [beginsWith]
  | cons c cs ih => simp [beginsWith, ih]

theorem containsSub_of_beginsWith (s v : List Char) (h : beginsWith s v = true) :
    containsSub s v = true := by
  cases s with
  | nil => simpa [containsSub] using h
  | cons c cs => simp [containsSub, h]

theorem containsSub_append_left (a s v : List Char) (h : containsSub s v = true) :
    containsSub (a ++ s) v = true := by
  induction a with
  | nil => simpa using h
  | cons c cs ih => simp [containsSub, ih]

theorem containsSub_append_self (a v b : List Char) :
    containsSub (a ++ v ++ b) v = true := by
  have h1 : containsSub (v ++ b) v = true :=
    containsSub_of_beginsWith _ _ (beginsWith_append v b)
  simpa [List.append_assoc] using containsSub_append_left a (v ++ b) v h1

namespace Rx

/-- Regular expressions over characters; `cls` is a character class given by a
decidable predicate (this is how `\d`, `\s`, `[A-Za-z]`, `.` … are embedded). -/
inductive RE : Type where
  | eps : RE
  | nul : RE
  | cls : (Char → Bool) → RE
  | cat : RE → RE → RE
  | alt : RE → RE → RE
  | star : RE → RE

/-- Does the regular expression accept the empty word? -/
def nullable : RE → Bool
  | .eps => true
  | .nul => false
  | .cls _ => false
  | .cat r1 r2 => nullable r1 && nullable r2
  | .alt r1 r2 => nullable r1 || nullable r2
  | .star _ => true

/-- Smart alternation keeping derivative terms small. -/
def mkAlt : RE → RE → RE
  | .nul, r => r
  | r, .nul => r
  | r1, r2 => .alt r1 r2

/-- Smart concatenation keeping derivative terms small. -/
def mkCat : RE → RE → RE
  | .nul, _ => .nul
  | _, .nul => .nul
  | .eps, r => r
  | r, .eps => r
  | r1, r2 => .cat r1 r2

theorem nullable_mkAlt (r1 r2 : RE) :
    nullable (mkAlt r1 r2) = (nullable r1 || nullable r2) := by
  cases r1 <;> cases r2 <;> simp [mkAlt, nullable]

theorem nullable_mkCat (r1 r2 : RE) :
    nullable (mkCat r1 r2) = (nullable r1 && nullable r2) := by
  cases r1 <;> cases r2 <;> simp [mkCat, nullable]

/-- Brzozowski derivative of a regular expression by one character. -/
def deriv : RE → Char → RE
  | .eps, _ => .nul
  | .nul, _ => .nul
  | .cls p, c => if p c then .eps else .nul
  | .cat r1 r2, c =>
      if nullable r1 then mkAlt (mkCat (deriv r1 c) r2) (deriv r2 c)
      else mkCat (deriv r1 c) r2
  | .alt r1 r2, c => mkAlt (deriv r1 c) (deriv r2 c)
  | .star r, c => mkCat (deriv r c) (.star r)

/-- Does `r` match some prefix of `s` (possibly the empty prefix)? -/
def matchesPref : RE → List Char → Bool
  | r, [] => nullable r
  | r, c :: cs => nullable r || matchesPref (deriv r c) cs

/-- JS `RegExp.test` for an unanchored pattern: does `r` match a substring of
`s` starting at any position? -/
def rtest : RE → List Char → Bool
  | r, [] => matchesPref r []
  | r, c :: cs => matchesPref r (c :: cs) || rtest r cs

/-- JS `RegExp.test` with the `/i` flag: the text is lower-cased and the
pattern is written in lower case. -/
def itest (r : RE) (s : List Char) : Bool :=
  rtest r (lowerStr s)

/-- Literal character sequence. -/
def lit : List Char → RE
  | [] => .eps
  | c :: cs => .cat (.cls (fun d => d == c)) (lit cs)

/-- Alternation of a list of regular expressions (empty list never matches). -/
def oneOf : List RE → RE
  | [] => .nul
  | [r] => r
  | r :: rs => .alt r (oneOf rs)

/-- Kleene plus. -/
def plus (r : RE) : RE :=
  .cat r (.star r)

/-- Zero-or-one. -/
def opt (r : RE) : RE :=
  .alt r .eps

/-- Exactly one or two repetitions (JS `{1,2}`). -/
def one2 (r : RE) : RE :=
  .cat r (opt r)

/-- JS `\d`. -/
def digit : RE :=
  .cls Char.isDigit

/-- JS `\s` (the whitespace characters relevant to ASCII text). -/
def wsp : RE :=
  .cls fun c => c == ' ' || c == '\t' || c == '\n' || c == '\x0d' || c == '\x0b' || c == '\x0c'

/-- JS `.` (any character except line terminators). -/
def dot : RE :=
  .cls fun c => !(c == '\n' || c == '\x0d')

/-- JS `[\d,]`. -/
def digitComma : RE :=
  .cls fun c => c.isDigit || c == ','

theorem rtest_dotStar (s : List Char) : rtest (RE.star dot) s = true := by
  cases s with
  | nil => rfl
  | cons c cs => simp [rtest, matchesPref, nullable]

theorem itest_dotStar (s : List Char) : itest (RE.star dot) s = true :=
  rtest_dotStar _

end Rx

namespace Rx

/-- Concatenation of a list of regular expressions. -/
def cats : List RE → RE
  | [] => .eps
  | [r] => r
  | r :: rs => .cat r (cats rs)

/-- JS `\s*`. -/
def ws0 : RE :=
  .star wsp

end Rx

namespace FunctionApp

/-!
Embedding of the `DocumentAnalyzer` class of `src/function-app.js`
(constructor table lines 16–32, `checkFieldCompleteness` lines 34–70,
`identifyDocumentType` lines 72–85, `checkDocumentValidity` lines 87–126,
`isFieldPresent` lines 128–147, `checkSignature` lines 149–160).
-/

/-- The `validityRules` record of a `documentTypes` entry. -/
structure ValidityRules where
  maxAge : Nat
  requiredSignatures : List (List Char)
deriving DecidableEq

/-- One entry of the `documentTypes` table. -/
structure DocConfig where
  requiredFields : List (List Char)
  validityRules : ValidityRules
deriving DecidableEq

/-- The APS entry of `this.documentTypes`. -/
def apsConfig : DocConfig where
  requiredFields :=
    [txt ("purchasePrice"), txt ("closingDate"), txt ("buyerName"), txt ("sellerName"),
     txt ("propertyAddress"), txt ("depositAmount")]
  validityRules :=
    { maxAge := 365, requiredSignatures := [txt ("buyer"), txt ("seller")] }

/-- The lease entry of `this.documentTypes`. -/
def leaseConfig : DocConfig where
  requiredFields :=
    [txt ("rentAmount"), txt ("leaseStartDate"), txt ("leaseEndDate"), txt ("tenantName"),
     txt ("landlordName"), txt ("propertyAddress")]
  validityRules :=
    { maxAge := 365, requiredSignatures := [txt ("tenant"), txt ("landlord")] }

/-- The LTB entry of `this.documentTypes`. -/
def ltbConfig : DocConfig where
  requiredFields :=
    [txt ("formNumber"), txt ("tenantName"), txt ("landlordName"), txt ("propertyAddress"),
     txt ("issueDate")]
  validityRules :=
    { maxAge := 30, requiredSignatures := [txt ("applicant")] }

/-- Lookup in `this.documentTypes` with the APS fallback: unknown document
types fall back to the APS entry. -/
def documentTypes (dt : List Char) : DocConfig :=
  if dt = txt ("Agreement of Purchase and Sale (APS)") then apsConfig
  else if dt = txt ("Residential Lease Agreement") then leaseConfig
  else if dt = txt ("Landlord and Tenant Board Form") then ltbConfig
  else apsConfig

/-- The regex `/\$[\d,]+|purchase\s*price/i`. -/
def rePurchasePrice : Rx.RE :=
  .alt (.cat (Rx.lit (txt ("$"))) (Rx.plus Rx.digitComma))
    (Rx.cats [Rx.lit (txt ("purchase")), Rx.ws0, Rx.lit (txt ("price"))])

/-- The regex `/closing\s*date|closes\s*on/i`. -/
def reClosingDate : Rx.RE :=
  .alt (Rx.cats [Rx.lit (txt ("closing")), Rx.ws0, Rx.lit (txt ("date"))])
    (Rx.cats [Rx.lit (txt ("closes")), Rx.ws0, Rx.lit (txt ("on"))])

/-- The regex `/buyer|purchaser/i`. -/
def reBuyerName : Rx.RE :=
  .alt (Rx.lit (txt ("buyer"))) (Rx.lit (txt ("purchaser")))

/-- The regex `/seller|vendor/i`. -/
def reSellerName : Rx.RE :=
  .alt (Rx.lit (txt ("seller"))) (Rx.lit (txt ("vendor")))

/-- The regex `/address|property\s*located/i`. -/
def rePropertyAddress : Rx.RE :=
  .alt (Rx.lit (txt ("address")))
    (Rx.cats [Rx.lit (txt ("property")), Rx.ws0, Rx.lit (txt ("located"))])

/-- The regex `/deposit|down\s*payment/i`. -/
def reDepositAmount : Rx.RE :=
  .alt (Rx.lit (txt ("deposit")))
    (Rx.cats [Rx.lit (txt ("down")), Rx.ws0, Rx.lit (txt ("payment"))])

/-- The regex `/rent|rental\s*amount/i`. -/
def reRentAmount : Rx.RE :=
  .alt (Rx.lit (txt ("rent")))
    (Rx.cats [Rx.lit (txt ("rental")), Rx.ws0, Rx.lit (txt ("amount"))])

/-- The regex `/lease\s*start|commencing/i`. -/
def reLeaseStartDate : Rx.RE :=
  .alt (Rx.cats [Rx.lit (txt ("lease")), Rx.ws0, Rx.lit (txt ("start"))])
    (Rx.lit (txt ("commencing")))

/-- The regex `/lease\s*end|expiring/i`. -/
def reLeaseEndDate : Rx.RE :=
  .alt (Rx.cats [Rx.lit (txt ("lease")), Rx.ws0, Rx.lit (txt ("end"))])
    (Rx.lit (txt ("expiring")))

/-- The regex `/tenant|lessee/i`. -/
def reTenantName : Rx.RE :=
  .alt (Rx.lit (txt ("tenant"))) (Rx.lit (txt ("lessee")))

/-- The regex `/landlord|lessor/i`. -/
def reLandlordName : Rx.RE :=
  .alt (Rx.lit (txt ("landlord"))) (Rx.lit (txt ("lessor")))

/-- The character class `[nNtT]`. -/
def ntClass : Rx.RE :=
  .cls fun c => c == 'n' || c == 'N' || c == 't' || c == 'T'

/-- First alternative of `/form\s*[nNtT]\d+|^[nNtT]\d+/` (case sensitive). -/
def reFormNumber1 : Rx.RE :=
  Rx.cats [Rx.lit (txt ("form")), Rx.ws0, ntClass, Rx.plus Rx.digit]

/-- Body of the second, `^`-anchored alternative of the `formNumber` regex. -/
def reFormNumber2 : Rx.RE :=
  .cat ntClass (Rx.plus Rx.digit)

/-- The regex `/issue\s*date|dated/i`. -/
def reIssueDate : Rx.RE :=
  .alt (Rx.cats [Rx.lit (txt ("issue")), Rx.ws0, Rx.lit (txt ("date"))])
    (Rx.lit (txt ("dated")))

/-- `isFieldPresent(text, fieldName)`: look the field up in the fixed pattern
map and test the regex; unknown fields are absent.  The `formNumber` pattern is
case sensitive and its second alternative is anchored at the start of the text,
so a match exists iff the first alternative matches anywhere or the anchored
body matches a prefix. -/
def isFieldPresent (text fieldName : List Char) : Bool :=
  if fieldName = txt ("purchasePrice") then Rx.itest rePurchasePrice text
  else if fieldName = txt ("closingDate") then Rx.itest reClosingDate text
  else if fieldName = txt ("buyerName") then Rx.itest reBuyerName text
  else if fieldName = txt ("sellerName") then Rx.itest reSellerName text
  else if fieldName = txt ("propertyAddress") then Rx.itest rePropertyAddress text
  else if fieldName = txt ("depositAmount") then Rx.itest reDepositAmount text
  else if fieldName = txt ("rentAmount") then Rx.itest reRentAmount text
  else if fieldName = txt ("leaseStartDate") then Rx.itest reLeaseStartDate text
  else if fieldName = txt ("leaseEndDate") then Rx.itest reLeaseEndDate text
  else if fieldName = txt ("tenantName") then Rx.itest reTenantName text
  else if fieldName = txt ("landlordName") then Rx.itest reLandlordName text
  else if fieldName = txt ("formNumber") then
    Rx.rtest reFormNumber1 text || Rx.matchesPref reFormNumber2 text
  else if fieldName = txt ("issueDate") then Rx.itest reIssueDate text
  else false

/-- Signature regex `/<role>\s*signature|signed\s*by\s*<role>/i`; the five
entries of the `checkSignature` pattern map all have exactly this shape. -/
def sigRE (role : List Char) : Rx.RE :=
  .alt (Rx.cats [Rx.lit role, Rx.ws0, Rx.lit (txt ("signature"))])
    (Rx.cats [Rx.lit (txt ("signed")), Rx.ws0, Rx.lit (txt ("by")), Rx.ws0, Rx.lit role])

/-- `checkSignature(text, signatureType)`: lower-case the role, look it up in
the pattern map (buyer/seller/tenant/landlord/applicant) and test; unknown
roles yield `false`. -/
def checkSignature (text sigType : List Char) : Bool :=
  let k := lowerStr sigType
  if k = txt ("buyer") || k = txt ("seller") || k = txt ("tenant") ||
      k = txt ("landlord") || k = txt ("applicant") then
    Rx.itest (sigRE k) text
  else false

/-- Result record of `checkFieldCompleteness` (the `completeness` object). -/
structure CompletenessInfo where
  score : ℤ
  status : List Char
  missingRequired : List (List Char)
  presentRequired : List (List Char)
deriving DecidableEq

/-- The status ladder of `checkFieldCompleteness` (lines 59–67). -/
def completenessStatus (score : ℤ) : List Char :=
  if score ≥ 90 then txt ("Complete")
  else if score ≥ 70 then txt ("Mostly Complete")
  else if score ≥ 50 then txt ("Partially Complete")
  else txt ("Incomplete")

/-- `checkFieldCompleteness(documentText, documentType)`: partition the
required fields by `isFieldPresent` (the JS loop pushes to the two arrays in
list order) and score `Math.round((present.length / required.length) * 100)`. -/
def checkFieldCompleteness (text dt : List Char) : CompletenessInfo :=
  let cfg := documentTypes dt
  let present := cfg.requiredFields.filter fun f => isFieldPresent text f
  let missing := cfg.requiredFields.filter fun f => !isFieldPresent text f
  let score : ℤ := round (((present.length : ℚ) / (cfg.requiredFields.length : ℚ)) * 100)
  { score := score, status := completenessStatus score,
    missingRequired := missing, presentRequired := present }

/-- Result record of `identifyDocumentType`. -/
structure Classification where
  documentType : List Char
  confidence : ℚ
  jurisdiction : List Char
deriving DecidableEq

/-- `identifyDocumentType(documentText, filename)`: filename-substring
heuristics only; the text argument is unused by the source. -/
def identifyDocumentType (_text fn : List Char) : Classification :=
  let f := lowerStr fn
  if containsSub f (txt ("purchase")) || containsSub f (txt ("sale")) ||
      containsSub f (txt ("aps")) then
    { documentType := txt ("Agreement of Purchase and Sale (APS)"), confidence := 9/10,
      jurisdiction := txt ("Ontario") }
  else if containsSub f (txt ("lease")) || containsSub f (txt ("rental")) then
    { documentType := txt ("Residential Lease Agreement"), confidence := 85/100,
      jurisdiction := txt ("Ontario") }
  else if containsSub f (txt ("n1")) || containsSub f (txt ("n4")) ||
      containsSub f (txt ("ltb")) then
    { documentType := txt ("Landlord and Tenant Board Form"), confidence := 88/100,
      jurisdiction := txt ("Ontario") }
  else
    { documentType := txt ("Legal Document"), confidence := 6/10,
      jurisdiction := txt ("Ontario") }

/-- Result record of `checkDocumentValidity`. -/
structure ValidityInfo where
  status : List Char
  score : ℤ
  issues : List (List Char)
  warnings : List (List Char)
deriving DecidableEq

/-- The regex `/date|dated|created|issued/i`. -/
def reDateWord : Rx.RE :=
  Rx.oneOf [Rx.lit (txt ("date")), Rx.lit (txt ("dated")), Rx.lit (txt ("created")),
    Rx.lit (txt ("issued"))]

/-- One iteration of the signature loop of `checkDocumentValidity`: a missing
signature appends an issue and deducts 20 points. -/
def sigStep (text : List Char) (acc : ℤ × List (List Char)) (sig : List Char) :
    ℤ × List (List Char) :=
  if checkSignature text sig then acc
  else (acc.1 - 20, acc.2 ++ [txt ("Missing required signature: ") ++ sig])

/-- The status ladder of `checkDocumentValidity` (lines 119–123): below 80 the
document is `Potentially Invalid`; at 80 or above it stays in the `Valid`
bucket (`Valid with Issues` when any issue was recorded). -/
def validityStatus (score : ℤ) (numIssues : Nat) : List Char :=
  if score < 80 then txt ("Potentially Invalid")
  else if 0 < numIssues then txt ("Valid with Issues")
  else txt ("Valid")

/-- `checkDocumentValidity(documentText, documentType)`: start from score 100,
run the signature loop, deduct 10 with a warning when no date word occurs, and
bucket the final status. -/
def checkDocumentValidity (text dt : List Char) : ValidityInfo :=
  let cfg := documentTypes dt
  let sigRes := cfg.validityRules.requiredSignatures.foldl (sigStep text) (100, [])
  let hasDate := Rx.itest reDateWord text
  let score := if hasDate then sigRes.1 else sigRes.1 - 10
  let warnings : List (List Char) := if hasDate then [] else [txt ("No date found in document")]
  { status := validityStatus score sigRes.2.length, score := score, issues := sigRes.2,
    warnings := warnings }

theorem sigFold_eq (text : List Char) (sigs : List (List Char)) (s : ℤ)
    (acc : List (List Char)) :
    sigs.foldl (sigStep text) (s, acc) =
      (s - 20 * ((sigs.filter fun r => !checkSignature text r).length : ℤ),
       acc ++ (sigs.filter fun r => !checkSignature text r).map
         fun r => txt ("Missing required signature: ") ++ r) := by
  induction sigs generalizing s acc with
  | nil => simp
  | cons a as ih =>
    by_cases h : checkSignature text a
    · simp only [List.foldl_cons, sigStep, h, if_pos, List.filter_cons]
      simp [h, ih]
    · simp only [List.foldl_cons, sigStep, h, if_neg, Bool.not_false, List.filter_cons]
      rw [ih]
      simp [h]
      ring

/-- Every `documentTypes` entry (including the fallback) has a nonempty
required-field list. -/
theorem documentTypes_requiredFields_pos (dt : List Char) :
    0 < (documentTypes dt).requiredFields.length := by
  unfold documentTypes
  repeat' split
  all_goals decide

/-- Every `documentTypes` entry lists at most two required signature roles. -/
theorem documentTypes_sigs_le_two (dt : List Char) :
    (documentTypes dt).validityRules.requiredSignatures.length ≤ 2 := by
  unfold documentTypes
  repeat' split
  all_goals decide

end FunctionApp

namespace AIAnalyzer

/-!
Embedding of the `AIDocumentAnalyzer` class of `src/ai-document-analyzer.js`
(`initializeDocumentDatabase` lines 22–160, `classifyDocument` lines 215–258,
`analyzeFieldCompleteness` lines 263–315, `analyzeValidity` lines 320–354,
`getFieldPatterns` lines 359–373, `isDocumentExpired` lines 434–444,
`hasMissingSignatures` lines 449–457, `hasIncompleteSections` lines 462–471).
-/

/-- One pattern record of `this.documentPatterns`. -/
structure AIProfile where
  visualIndicators : List (List Char)
  textPatterns : List Rx.RE
  requiredFields : List (List Char)
  documentType : List Char
  description : List Char

/-- JS `\s+`. -/
def sp1 : Rx.RE :=
  Rx.plus Rx.wsp

/-- The tail `\s*:?\s*\$?[\d,]+` shared by several amount patterns. -/
def amountTail : Rx.RE :=
  Rx.cats [Rx.ws0, Rx.opt (Rx.lit (txt (":"))), Rx.ws0, Rx.opt (Rx.lit (txt ("$"))),
    Rx.plus Rx.digitComma]

/-- Two literal words separated by `\s+`. -/
def w2 (a b : String) : Rx.RE :=
  Rx.cats [Rx.lit (txt (a)), sp1, Rx.lit (txt (b))]

/-- The date shape `\d{1,2}\/\d{1,2}\/\d{4}`. -/
def dateShape : Rx.RE :=
  Rx.cats [Rx.one2 Rx.digit, Rx.lit (txt ("/")), Rx.one2 Rx.digit, Rx.lit (txt ("/")),
    Rx.digit, Rx.digit, Rx.digit, Rx.digit]

/-- The `Agreement of Purchase and Sale` pattern record.  The lazy `.*?` of the
fourth regex is embedded as `.*`, which has the same `test` (match-existence)
semantics. -/
def apsProfile : AIProfile where
  visualIndicators :=
    [txt ("AGREEMENT OF PURCHASE AND SALE"), txt ("PURCHASE PRICE"), txt ("CLOSING DATE"),
     txt ("DEPOSIT"), txt ("BUYER"), txt ("SELLER"), txt ("PROPERTY ADDRESS")]
  textPatterns :=
    [.cat (w2 ("purchase") ("price")) amountTail,
     Rx.cats [w2 ("closing") ("date"), Rx.ws0, Rx.opt (Rx.lit (txt (":"))), Rx.ws0, dateShape],
     .cat (w2 ("deposit") ("amount")) amountTail,
     Rx.cats [Rx.lit (txt ("between")), sp1, Rx.RE.star Rx.dot, sp1, Rx.lit (txt ("(buyer)")),
       sp1, Rx.lit (txt ("and")), sp1, Rx.RE.star Rx.dot, sp1, Rx.lit (txt ("(seller)"))]]
  requiredFields :=
    [txt ("purchasePrice"), txt ("closingDate"), txt ("buyerName"), txt ("sellerName"),
     txt ("propertyAddress"), txt ("depositAmount"), txt ("irrevocableDate")]
  documentType := txt ("Agreement of Purchase and Sale (APS)")
  description :=
    txt ("Legal contract for real estate transactions outlining purchase terms, conditions, and closing details.")

/-- The `A2 Form` pattern record. -/
def a2Profile : AIProfile where
  visualIndicators :=
    [txt ("APPLICATION TO INCREASE RENT"), txt ("LANDLORD AND TENANT BOARD"), txt ("FORM A2"),
     txt ("RENT INCREASE"), txt ("ABOVE GUIDELINE")]
  textPatterns :=
    [Rx.cats [Rx.lit (txt ("application")), sp1, Rx.lit (txt ("to")), sp1,
       Rx.lit (txt ("increase")), sp1, Rx.lit (txt ("rent"))],
     w2 ("form") ("a2"),
     Rx.cats [Rx.lit (txt ("landlord")), sp1, Rx.lit (txt ("and")), sp1, Rx.lit (txt ("tenant")),
       sp1, Rx.lit (txt ("board"))],
     Rx.cats [Rx.lit (txt ("above")), sp1, Rx.lit (txt ("guideline")), sp1,
       Rx.lit (txt ("increase"))]]
  requiredFields :=
    [txt ("landlordName"), txt ("tenantName"), txt ("propertyAddress"), txt ("currentRent"),
     txt ("proposedRent"), txt ("increaseReason"), txt ("applicationDate")]
  documentType := txt ("A2 Form (Landlord and Tenant Board)")
  description := txt ("LTB application form for rent increases above guideline, requiring board approval.")

/-- The `L1 Form` pattern record. -/
def l1Profile : AIProfile where
  visualIndicators :=
    [txt ("APPLICATION TO TERMINATE A TENANCY"), txt ("FORM L1"),
     txt ("LANDLORD AND TENANT BOARD"), txt ("EVICTION")]
  textPatterns :=
    [Rx.cats [Rx.lit (txt ("application")), sp1, Rx.lit (txt ("to")), sp1,
       Rx.lit (txt ("terminate")), sp1, Rx.lit (txt ("a")), sp1, Rx.lit (txt ("tenancy"))],
     w2 ("form") ("l1"),
     Rx.lit (txt ("eviction"))]
  requiredFields :=
    [txt ("landlordName"), txt ("tenantName"), txt ("propertyAddress"), txt ("terminationReason"),
     txt ("noticeDate"), txt ("hearingDate")]
  documentType := txt ("L1 Form (Landlord and Tenant Board)")
  description := txt ("LTB application form for terminating tenancy and eviction proceedings.")

/-- The `Residential Lease` pattern record. -/
def leaseProfile : AIProfile where
  visualIndicators :=
    [txt ("RESIDENTIAL LEASE AGREEMENT"), txt ("TENANT"), txt ("LANDLORD"), txt ("RENT"),
     txt ("LEASE TERM"), txt ("SECURITY DEPOSIT")]
  textPatterns :=
    [Rx.cats [Rx.lit (txt ("residential")), sp1, Rx.lit (txt ("lease")), sp1,
       Rx.lit (txt ("agreement"))],
     .cat (w2 ("monthly") ("rent")) amountTail,
     Rx.cats [w2 ("lease") ("term"), Rx.ws0, Rx.opt (Rx.lit (txt (":"))), Rx.ws0,
       Rx.plus Rx.digit, sp1, Rx.lit (txt ("month")), Rx.opt (Rx.lit (txt ("s")))],
     .cat (w2 ("security") ("deposit")) amountTail]
  requiredFields :=
    [txt ("tenantName"), txt ("landlordName"), txt ("propertyAddress"), txt ("monthlyRent"),
     txt ("leaseStartDate"), txt ("leaseEndDate"), txt ("securityDeposit")]
  documentType := txt ("Residential Lease Agreement")
  description := txt ("Legal contract between landlord and tenant for residential property rental.")

/-- The `Mortgage Document` pattern record. -/
def mortgageProfile : AIProfile where
  visualIndicators :=
    [txt ("MORTGAGE"), txt ("PRINCIPAL AMOUNT"), txt ("INTEREST RATE"), txt ("AMORTIZATION"),
     txt ("LENDER")]
  textPatterns :=
    [w2 ("mortgage") ("agreement"),
     .cat (w2 ("principal") ("amount")) amountTail,
     Rx.cats [w2 ("interest") ("rate"), Rx.ws0, Rx.opt (Rx.lit (txt (":"))), Rx.ws0,
       Rx.plus (Rx.RE.cls fun c => c.isDigit || c == '.'), Rx.lit (txt ("%"))],
     Rx.cats [w2 ("amortization") ("period"), Rx.ws0, Rx.opt (Rx.lit (txt (":"))), Rx.ws0,
       Rx.plus Rx.digit, sp1, Rx.lit (txt ("year")), Rx.opt (Rx.lit (txt ("s")))]]
  requiredFields :=
    [txt ("borrowerName"), txt ("lenderName"), txt ("propertyAddress"), txt ("principalAmount"),
     txt ("interestRate"), txt ("amortizationPeriod"), txt ("monthlyPayment")]
  documentType := txt ("Mortgage Document")
  description := txt ("Legal contract securing a loan with real estate property as collateral.")

/-- The `Insurance Policy` pattern record. -/
def insuranceProfile : AIProfile where
  visualIndicators :=
    [txt ("INSURANCE POLICY"), txt ("POLICY NUMBER"), txt ("COVERAGE"), txt ("PREMIUM"),
     txt ("DEDUCTIBLE")]
  textPatterns :=
    [w2 ("insurance") ("policy"),
     Rx.cats [w2 ("policy") ("number"), Rx.ws0, Rx.opt (Rx.lit (txt (":"))), Rx.ws0,
       Rx.plus (Rx.RE.cls fun c => c.isAlphanum || c == '_' || c == '-')],
     .cat (w2 ("coverage") ("amount")) amountTail,
     .cat (w2 ("annual") ("premium")) amountTail]
  requiredFields :=
    [txt ("policyNumber"), txt ("insuredName"), txt ("coverageType"), txt ("coverageAmount"),
     txt ("premiumAmount"), txt ("effectiveDate"), txt ("expirationDate")]
  documentType := txt ("Insurance Policy")
  description := txt ("Contract providing financial protection against specified risks.")

/-- The full `documentPatterns` map in insertion order (JS `Map` iteration
order). -/
def documentPatterns : List (List Char × AIProfile) :=
  [(txt ("Agreement of Purchase and Sale"), apsProfile),
   (txt ("A2 Form"), a2Profile),
   (txt ("L1 Form"), l1Profile),
   (txt ("Residential Lease"), leaseProfile),
   (txt ("Mortgage Document"), mortgageProfile),
   (txt ("Insurance Policy"), insuranceProfile)]

/-- Result record of `classifyDocument`. -/
structure Classification where
  documentType : List Char
  confidence : ℚ
  description : List Char
deriving DecidableEq

/-- JS `ind.toLowerCase().replace(/\s+/g, '')`: lower-case and delete all
whitespace characters. -/
def stripWsp (s : List Char) : List Char :=
  s.filter fun c =>
    !(c == ' ' || c == '\t' || c == '\n' || c == '\x0d' || c == '\x0b' || c == '\x0c')

/-- The filename check of `classifyDocument`: some visual indicator,
lower-cased and with whitespace removed, occurs in the lower-cased filename. -/
def filenameHit (fn : List Char) (p : AIProfile) : Bool :=
  p.visualIndicators.any fun ind => containsSub (lowerStr fn) (stripWsp (lowerStr ind))

/-- Raw score of one pattern record: one point per visual indicator contained
in the upper-cased text, one point per matching text regex, half a point for a
filename hit. -/
def profileScore (text fn : List Char) (p : AIProfile) : ℚ :=
  (p.visualIndicators.countP fun ind => containsSub (upperStr text) ind)
  + (p.textPatterns.countP fun r => Rx.itest r text)
  + (if filenameHit fn p then 1/2 else 0)

/-- The `totalChecks` counter: indicators plus text patterns. -/
def profileTotalChecks (p : AIProfile) : Nat :=
  p.visualIndicators.length + p.textPatterns.length

/-- `score / totalChecks`, guarding against an empty record exactly as the
source does. -/
def profileConfidence (text fn : List Char) (p : AIProfile) : ℚ :=
  if 0 < profileTotalChecks p then profileScore text fn p / (profileTotalChecks p : ℚ) else 0

/-- One iteration of the `classifyDocument` loop: replace the best match when
the new confidence is strictly greater, capping the stored confidence at 1. -/
def classifyStep (text fn : List Char) (best : Classification) (kv : List Char × AIProfile) :
    Classification :=
  let c := profileConfidence text fn kv.2
  if best.confidence < c then
    { documentType := kv.2.documentType, confidence := min c 1, description := kv.2.description }
  else best

/-- `classifyDocument(documentText, filename)` over a given pattern table. -/
def classifyDocument (patterns : List (List Char × AIProfile)) (text fn : List Char) :
    Classification :=
  patterns.foldl (classifyStep text fn)
    { documentType := txt ("Unknown Document"), confidence := 0,
      description := txt ("Unable to determine document type") }

/-- The class `[A-Za-z\s]` (name capture bodies). -/
def alphaWspCls : Rx.RE :=
  Rx.RE.cls fun c => c.isAlpha || c == ' ' || c == '\t' || c == '\n' || c == '\x0d' ||
    c == '\x0b' || c == '\x0c'

/-- The class `[A-Za-z0-9\s,.-]` (address capture bodies). -/
def addrCls : Rx.RE :=
  Rx.RE.cls fun c => c.isAlphanum || c == ' ' || c == '\t' || c == '\n' || c == '\x0d' ||
    c == '\x0b' || c == '\x0c' || c == ',' || c == '.' || c == '-'

/-- A label followed by `\s*:?\s*` and a captured body (capture groups do not
affect `test`). -/
def labelThen (lab : String) (body : Rx.RE) : Rx.RE :=
  Rx.cats [Rx.lit (txt (lab)), Rx.ws0, Rx.opt (Rx.lit (txt (":"))), Rx.ws0, body]

/-- `getFieldPatterns(fieldName)`: the hard-coded field pattern map; any field
name not in the map falls back to the catch-all `[/.*/i]`. -/
def getFieldPatterns (fieldName : List Char) : List Rx.RE :=
  if fieldName = txt ("purchasePrice") then
    [Rx.cats [Rx.opt (Rx.lit (txt ("$"))), Rx.plus Rx.digitComma,
       Rx.opt (Rx.cats [Rx.lit (txt (".")), Rx.digit, Rx.digit])],
     .cat (w2 ("purchase") ("price")) amountTail]
  else if fieldName = txt ("closingDate") then
    [dateShape,
     Rx.cats [w2 ("closing") ("date"), Rx.ws0, Rx.opt (Rx.lit (txt (":"))), Rx.ws0, dateShape]]
  else if fieldName = txt ("buyerName") then
    [labelThen ("buyer") (Rx.plus alphaWspCls), labelThen ("purchaser") (Rx.plus alphaWspCls)]
  else if fieldName = txt ("sellerName") then
    [labelThen ("seller") (Rx.plus alphaWspCls), labelThen ("vendor") (Rx.plus alphaWspCls)]
  else if fieldName = txt ("propertyAddress") then
    [Rx.cats [w2 ("property") ("address"), Rx.ws0, Rx.opt (Rx.lit (txt (":"))), Rx.ws0,
       Rx.plus addrCls],
     labelThen ("premises") (Rx.plus addrCls)]
  else if fieldName = txt ("depositAmount") then
    [.cat (Rx.lit (txt ("deposit"))) amountTail, .cat (w2 ("earnest") ("money")) amountTail]
  else if fieldName = txt ("monthlyRent") then
    [.cat (w2 ("monthly") ("rent")) amountTail, .cat (Rx.lit (txt ("rent"))) amountTail]
  else if fieldName = txt ("landlordName") then
    [labelThen ("landlord") (Rx.plus alphaWspCls), labelThen ("lessor") (Rx.plus alphaWspCls)]
  else if fieldName = txt ("tenantName") then
    [labelThen ("tenant") (Rx.plus alphaWspCls), labelThen ("lessee") (Rx.plus alphaWspCls)]
  else
    [Rx.RE.star Rx.dot]

/-- The field-presence loop of `analyzeFieldCompleteness`: some pattern of the
field matches (the JS loop breaks on the first hit). -/
def fieldPresent (text fieldName : List Char) : Bool :=
  (getFieldPatterns fieldName).any fun r => Rx.itest r text

/-- Result record of `analyzeFieldCompleteness` (the `completeness` object). -/
structure AICompleteness where
  score : ℤ
  status : List Char
  missingRequired : List (List Char)
  presentRequired : List (List Char)
deriving DecidableEq

/-- The status ladder of `analyzeFieldCompleteness` (lines 301–305), applied to
the un-rounded percentage. -/
def aiCompletenessStatus (score : ℚ) : List Char :=
  if score < 50 then txt ("Incomplete")
  else if score < 80 then txt ("Partially Complete")
  else if score < 100 then txt ("Mostly Complete")
  else txt ("Complete")

/-- `analyzeFieldCompleteness(documentText, documentType)`: find the pattern
record with the given `documentType`; if none exists return score 0 with
status `Unknown Document Type`, otherwise partition the required fields by
`fieldPresent` and score `Math.round(present/total*100)`. -/
def analyzeFieldCompleteness (patterns : List (List Char × AIProfile)) (text dt : List Char) :
    AICompleteness :=
  match (patterns.map Prod.snd).find? (fun p => p.documentType == dt) with
  | none =>
      { score := 0, status := txt ("Unknown Document Type"),
        missingRequired := [], presentRequired := [] }
  | some p =>
      let present := p.requiredFields.filter fun f => fieldPresent text f
      let missing := p.requiredFields.filter fun f => !fieldPresent text f
      let score : ℚ := (present.length : ℚ) / (p.requiredFields.length : ℚ) * 100
      { score := round score, status := aiCompletenessStatus score,
        missingRequired := missing, presentRequired := present }

/-- Whether `y` is a Gregorian leap year. -/
def isLeap (y : Nat) : Bool :=
  y % 4 == 0 && (y % 100 != 0 || y % 400 == 0)

/-- Days in all years before year `y` of the proleptic Gregorian calendar
(counting year 0 as a leap year, as JS `Date` does). -/
def daysBeforeYear (y : Nat) : Nat :=
  365 * y + (y + 3) / 4 - (y + 99) / 100 + (y + 399) / 400

/-- Days in the months before month `m` (1–12) of a year. -/
def daysBeforeMonth (leap : Bool) (m : Nat) : Nat :=
  let feb := if leap then 29 else 28
  match m with
  | 1 => 0
  | 2 => 31
  | 3 => 31 + feb
  | 4 => 62 + feb
  | 5 => 92 + feb
  | 6 => 123 + feb
  | 7 => 153 + feb
  | 8 => 184 + feb
  | 9 => 215 + feb
  | 10 => 245 + feb
  | 11 => 276 + feb
  | _ => 306 + feb

/-- Day-granularity time value of `new Date("MM/DD/YYYY")`.  The JS date
parser requires a month in 1–12 and a day in 1–31 and yields Invalid Date
(`none`) otherwise; within that range, a day beyond the length of the month
rolls over into the next month exactly as JS `MakeDay` does, because the day
is simply added. -/
def jsDateValue : Nat × Nat × Nat → Option Nat
  | (m, d, y) =>
    if 1 ≤ m && m ≤ 12 && 1 ≤ d && d ≤ 31 then
      some (daysBeforeYear y + daysBeforeMonth (isLeap y) m + d)
    else none

/-- Numeric value of a digit character. -/
def dval (c : Char) : Nat :=
  c.toNat - 48

/-- Match `\d{1,2}\/` at the head of the string (greedy, two digits first),
returning the number and the rest after the slash. -/
def try12Slash : List Char → Option (Nat × List Char)
  | a :: b :: c :: rest =>
      if a.isDigit && b.isDigit && c == '/' then some (dval a * 10 + dval b, rest)
      else if a.isDigit && b == '/' then some (dval a, c :: rest)
      else none
  | [a, b] => if a.isDigit && b == '/' then some (dval a, []) else none
  | _ => none

/-- Match exactly `\d{4}` at the head of the string. -/
def try4Digits : List Char → Option (Nat × List Char)
  | a :: b :: c :: d :: rest =>
      if a.isDigit && b.isDigit && c.isDigit && d.isDigit then
        some (((dval a * 10 + dval b) * 10 + dval c) * 10 + dval d, rest)
      else none
  | _ => none

/-- Match the whole pattern `\d{1,2}\/\d{1,2}\/\d{4}` at the head of the
string, returning `(month, day, year)` and the rest. -/
def tryDate (s : List Char) : Option ((Nat × Nat × Nat) × List Char) :=
  match try12Slash s with
  | none => none
  | some (m, s1) =>
    match try12Slash s1 with
    | none => none
    | some (d, s2) =>
      match try4Digits s2 with
      | none => none
      | some (y, s3) => some ((m, d, y), s3)

/-- Leftmost, non-overlapping global matches of `\d{1,2}\/\d{1,2}\/\d{4}`
(the `text.match(...g)` of `isDocumentExpired`); the fuel argument is the
text length, which a match (of at least eight characters) never exhausts. -/
def scanDatesAux : Nat → List Char → List (Nat × Nat × Nat)
  | 0, _ => []
  | _ + 1, [] => []
  | n + 1, c :: cs =>
    match tryDate (c :: cs) with
    | some (dt, rest) => dt :: scanDatesAux n rest
    | none => scanDatesAux n cs

/-- All MM/DD/YYYY dates occurring in the text, in order. -/
def scanDates (s : List Char) : List (Nat × Nat × Nat) :=
  scanDatesAux s.length s

/-- `isDocumentExpired(documentText)`: some date in the text is strictly
before the current date `now` (an invalid date compares false, as NaN does). -/
def isDocumentExpired (now : Nat) (text : List Char) : Bool :=
  (scanDates text).any fun dt =>
    match jsDateValue dt with
    | some v => decide (v < now)
    | none => false

/-- `hasMissingSignatures(documentText)`: none of `/signature/i`, `/signed/i`,
`/witness/i` matches. -/
def hasMissingSignatures (text : List Char) : Bool :=
  !(Rx.itest (Rx.lit (txt ("signature"))) text || Rx.itest (Rx.lit (txt ("signed"))) text ||
    Rx.itest (Rx.lit (txt ("witness"))) text)

/-- `hasIncompleteSections(documentText)`: brackets, a run of at least three
underscores, `to be completed`, or `tbd`. -/
def hasIncompleteSections (text : List Char) : Bool :=
  Rx.rtest (Rx.cats [Rx.lit (txt ("[")), Rx.RE.star Rx.dot, Rx.lit (txt ("]"))]) text ||
  Rx.rtest (.cat (Rx.lit (txt ("__"))) (Rx.plus (Rx.lit (txt ("_"))))) text ||
  Rx.itest (Rx.lit (txt ("to be completed"))) text ||
  Rx.itest (Rx.lit (txt ("tbd"))) text

/-- Result record of `analyzeValidity`. -/
structure AIValidity where
  status : List Char
  issues : List (List Char)
  warnings : List (List Char)
  score : ℤ
deriving DecidableEq

/-- `analyzeValidity(documentText, documentType)`: sequential deductions of
30/20/10 for expiry, missing signatures and incomplete sections, status from
the issue and warning lists, and a final `Math.max(0, score)` clamp.  The
`documentType` argument is unused by the source. -/
def analyzeValidity (now : Nat) (text _dt : List Char) : AIValidity :=
  let e := isDocumentExpired now text
  let ms := hasMissingSignatures text
  let inc := hasIncompleteSections text
  let issues :=
    (if e then [txt ("Document appears to be expired")] else []) ++
    (if ms then [txt ("Required signatures may be missing")] else [])
  let warnings : List (List Char) :=
    if inc then [txt ("Some sections appear incomplete")] else []
  let score : ℤ :=
    100 - (if e then 30 else 0) - (if ms then 20 else 0) - (if inc then 10 else 0)
  let status :=
    if issues.length > 0 then txt ("Invalid")
    else if warnings.length > 0 then txt ("Valid with Warnings")
    else txt ("Valid")
  { status := status, issues := issues, warnings := warnings, score := max 0 score }

end AIAnalyzer

namespace MLPlugins

/-!
Embedding of the `DocumentClassifier` plugin of the ML-plugins source file
(`src/unnamed/part_001`, lines 75–197): `this.models`, `classify`,
`analyzeFileContent` and `calculateScore`.  Only the filename is consulted;
the file argument is unused by the source.
-/

/-- One entry of `this.models`. -/
structure MLModel where
  keywords : List (List Char)
  patterns : List (List Char)
  confidence : ℚ
deriving DecidableEq

/-- The APS model. -/
def apsModel : MLModel where
  keywords :=
    [txt ("purchase"), txt ("sale"), txt ("buyer"), txt ("seller"), txt ("closing"),
     txt ("property"), txt ("price")]
  patterns := [txt ("agreement of purchase"), txt ("purchase and sale"), txt ("real estate")]
  confidence := 9/10

/-- The lease model. -/
def leaseModel : MLModel where
  keywords :=
    [txt ("lease"), txt ("rent"), txt ("tenant"), txt ("landlord"), txt ("rental"),
     txt ("monthly")]
  patterns := [txt ("lease agreement"), txt ("rental agreement"), txt ("tenancy")]
  confidence := 9/10

/-- The LTB model. -/
def ltbModel : MLModel where
  keywords := [txt ("ltb"), txt ("board"), txt ("application"), txt ("hearing"), txt ("tribunal")]
  patterns := [txt ("landlord and tenant board"), txt ("ltb form")]
  confidence := 85/100

/-- `this.models` in insertion order. -/
def models : List (List Char × MLModel) :=
  [(txt ("Agreement of Purchase and Sale (APS)"), apsModel),
   (txt ("Residential Lease Agreement"), leaseModel),
   (txt ("Landlord and Tenant Board Form"), ltbModel)]

/-- `calculateScore(filename, model)` (the filename is already lower-cased by
the caller): 0.4 per filename pattern hit plus 0.1 per keyword hit, capped at
0.95. -/
def calculateScore (f : List Char) (m : MLModel) : ℚ :=
  min ((m.patterns.countP fun p => containsSub f (lowerStr p)) * (4/10)
    + (m.keywords.countP fun k => containsSub f (lowerStr k)) * (1/10)) (95/100)

/-- Result of `classify` / `analyzeFileContent`. -/
structure MLResult where
  type : List Char
  confidence : ℚ
deriving DecidableEq

/-- One iteration of the model loop of `classify`. -/
def classifyStep (f : List Char) (best : MLResult) (kv : List Char × MLModel) : MLResult :=
  let s := calculateScore f kv.2
  if best.confidence < s then { type := kv.1, confidence := s } else best

/-- `analyzeFileContent(filename)`: the filename-substring heuristic ladder. -/
def analyzeFileContent (fn : List Char) : MLResult :=
  let f := lowerStr fn
  if containsSub f (txt ("a2")) || containsSub f (txt ("a-2")) then
    { type := txt ("A2 Form (Landlord and Tenant Board)"), confidence := 9/10 }
  else if containsSub f (txt ("lease")) || containsSub f (txt ("rental")) then
    { type := txt ("Residential Lease Agreement"), confidence := 8/10 }
  else if containsSub f (txt ("ltb")) || containsSub f (txt ("landlord")) ||
      containsSub f (txt ("tenant")) then
    { type := txt ("Landlord and Tenant Board Form"), confidence := 8/10 }
  else if containsSub f (txt ("waiver")) || containsSub f (txt ("fee")) then
    { type := txt ("Fee Waiver Request"), confidence := 8/10 }
  else if containsSub f (txt ("mortgage")) || containsSub f (txt ("loan")) then
    { type := txt ("Mortgage Document"), confidence := 8/10 }
  else if containsSub f (txt ("insurance")) || containsSub f (txt ("policy")) then
    { type := txt ("Insurance Document"), confidence := 8/10 }
  else if containsSub f (txt ("contract")) || containsSub f (txt ("agreement")) then
    { type := txt ("General Contract"), confidence := 6/10 }
  else if containsSub f (txt ("invoice")) || containsSub f (txt ("bill")) then
    { type := txt ("Invoice/Bill"), confidence := 7/10 }
  else if containsSub f (txt ("receipt")) || containsSub f (txt ("payment")) then
    { type := txt ("Receipt/Payment"), confidence := 7/10 }
  else if containsSub f (txt ("statement")) || containsSub f (txt ("account")) then
    { type := txt ("Financial Statement"), confidence := 7/10 }
  else if containsSub f (txt ("report")) || containsSub f (txt ("analysis")) then
    { type := txt ("Report/Analysis"), confidence := 6/10 }
  else if containsSub f (txt ("letter")) || containsSub f (txt ("correspondence")) then
    { type := txt ("Letter/Correspondence"), confidence := 6/10 }
  else if containsSub f (txt ("form")) || containsSub f (txt ("application")) then
    { type := txt ("Form/Application"), confidence := 6/10 }
  else
    { type := txt ("Unknown Document"), confidence := 2/10 }

/-- `classify(file, filename)`: best model score (initial best `Unknown
Document`/0.3), a fallback to `analyzeFileContent` below 0.6, and the generic
`General Legal Document`/0.3 result below 0.4. -/
def classify (fn : List Char) : MLResult :=
  let f := lowerStr fn
  let best := models.foldl (classifyStep f) { type := txt ("Unknown Document"), confidence := 3/10 }
  let best2 :=
    if best.confidence < 6/10 then
      let ca := analyzeFileContent fn
      if best.confidence < ca.confidence then ca else best
    else best
  if best2.confidence < 4/10 then { type := txt ("General Legal Document"), confidence := 3/10 }
  else best2

end MLPlugins

namespace Chat

/-!
Embedding of the `EnhancedChatSystem` class of `src/unnamed/part_000`
(`extractKeyFields` lines 60–77, `classifyQuestion` lines 184–206,
`generateFinancialResponse` lines 392–415).
-/

/-- `classifyQuestion(question)`: lower-case and classify by substrings. -/
def classifyQuestion (question : List Char) : List Char :=
  let q := lowerStr question
  if containsSub q (txt ("what")) &&
      (containsSub q (txt ("document")) || containsSub q (txt ("for"))) then
    txt ("document_purpose")
  else if containsSub q (txt ("missing")) || containsSub q (txt ("incomplete")) ||
      containsSub q (txt ("complete")) then
    txt ("completeness")
  else if containsSub q (txt ("valid")) || containsSub q (txt ("validity")) ||
      containsSub q (txt ("ready")) then
    txt ("validity")
  else if containsSub q (txt ("price")) || containsSub q (txt ("cost")) ||
      containsSub q (txt ("amount")) then
    txt ("financial")
  else if containsSub q (txt ("date")) || containsSub q (txt ("when")) ||
      containsSub q (txt ("time")) then
    txt ("temporal")
  else if containsSub q (txt ("who")) || containsSub q (txt ("party")) ||
      containsSub q (txt ("person")) then
    txt ("parties")
  else if containsSub q (txt ("where")) || containsSub q (txt ("address")) ||
      containsSub q (txt ("location")) then
    txt ("location")
  else if containsSub q (txt ("how")) || containsSub q (txt ("process")) ||
      containsSub q (txt ("step")) then
    txt ("process")
  else
    txt ("general")

/-- The fields of an `AnalysisResult` record read by `extractKeyFields`; `none`
models an absent (or other falsy) JS property. -/
structure DocumentData where
  issueDate : Option (List Char)
  expiryDate : Option (List Char)
  jurisdiction : Option (List Char)
  purchasePrice : Option (List Char)
  closingDate : Option (List Char)
  buyerName : Option (List Char)
  sellerName : Option (List Char)
  propertyAddress : Option (List Char)
  depositAmount : Option (List Char)
deriving DecidableEq

/-- JS truthiness of an optional string: present and nonempty. -/
def jsTruthy : Option (List Char) → Bool
  | none => false
  | some s => !s.isEmpty

/-- Keep a property only when it is truthy (`if (x) fields.y = x`). -/
def keep (o : Option (List Char)) : Option (List Char) :=
  if jsTruthy o then o else none

/-- The `fields` object built by `extractKeyFields`; `rentAmount` is read by
`generateFinancialResponse` but never assigned by `extractKeyFields`, so it is
always absent there. -/
structure KeyFields where
  issueDate : Option (List Char)
  expiryDate : Option (List Char)
  jurisdiction : Option (List Char)
  purchasePrice : Option (List Char)
  closingDate : Option (List Char)
  buyerName : Option (List Char)
  sellerName : Option (List Char)
  propertyAddress : Option (List Char)
  depositAmount : Option (List Char)
  rentAmount : Option (List Char)
deriving DecidableEq

/-- `extractKeyFields(documentData)`. -/
def extractKeyFields (d : DocumentData) : KeyFields where
  issueDate := keep d.issueDate
  expiryDate := keep d.expiryDate
  jurisdiction := keep d.jurisdiction
  purchasePrice := keep d.purchasePrice
  closingDate := keep d.closingDate
  buyerName := keep d.buyerName
  sellerName := keep d.sellerName
  propertyAddress := keep d.propertyAddress
  depositAmount := keep d.depositAmount
  rentAmount := none

/-- One conditional Markdown line `**Label**: value\n\n` of
`generateFinancialResponse`, emitted only for a truthy field. -/
def optLine (label : List Char) (o : Option (List Char)) : List Char :=
  match o with
  | some v => if v.isEmpty then [] else label ++ v ++ txt ("\n\n")
  | none => []

/-- `generateFinancialResponse(context)`: header, one line per truthy financial
field, and an apology when none is truthy. -/
def generateFinancialResponse (fields : KeyFields) : List Char :=
  let r := txt ("## Financial Information\n\n")
    ++ optLine (txt ("**Purchase Price**: ")) fields.purchasePrice
    ++ optLine (txt ("**Deposit Amount**: ")) fields.depositAmount
    ++ optLine (txt ("**Rent Amount**: ")) fields.rentAmount
  if !jsTruthy fields.purchasePrice && !jsTruthy fields.depositAmount &&
      !jsTruthy fields.rentAmount then
    r ++ txt ("I don't see any financial information in this document. ")
      ++ txt ("This might be because the document type doesn't typically contain financial details, ")
      ++ txt ("or the information wasn't extracted properly.")
  else r

end Chat

namespace SimpleServer

/-!
Embedding of the `DocumentAnalyzer` class of `src/simple-server.js`
(constructor table lines 346–395, `checkDocumentValidity` lines 554–663,
`extractFieldValue`/`extractDate`/`extractAmount`/`extractFormNumber` lines
689–746, `checkSignature` lines 748–759 — the latter duplicates
the `checkSignature` of `function-app.js` verbatim, so `FunctionApp.checkSignature`
is reused).  `new Date()` arithmetic is modelled at day granularity through
the explicit parameter `now`.
-/

/-- The `validityRules` record of a `simple-server` document type; optional
JS properties are `Option`s. -/
structure SSValidityRules where
  maxAge : Nat
  requiredSignatures : List (List Char)
  minDepositPercent : Option Nat
  minLeaseTerm : Option Nat
  validFormNumbers : Option (List (List Char))
  minBalance : Option Nat
  validTaxYears : Option (List Nat)
deriving DecidableEq

/-- One entry of the `simple-server` `documentTypes` table. -/
structure SSConfig where
  requiredFields : List (List Char)
  optionalFields : List (List Char)
  validityRules : SSValidityRules
deriving DecidableEq

/-- The APS entry. -/
def apsConfig : SSConfig where
  requiredFields :=
    [txt ("purchasePrice"), txt ("closingDate"), txt ("buyerName"), txt ("sellerName"),
     txt ("propertyAddress"), txt ("depositAmount")]
  optionalFields :=
    [txt ("irrevocableDate"), txt ("scheduleA"), txt ("financingCondition"),
     txt ("inspectionCondition")]
  validityRules :=
    { maxAge := 365, requiredSignatures := [txt ("buyer"), txt ("seller")],
      minDepositPercent := some 5, minLeaseTerm := none, validFormNumbers := none,
      minBalance := none, validTaxYears := none }

/-- The lease entry. -/
def leaseConfig : SSConfig where
  requiredFields :=
    [txt ("rentAmount"), txt ("leaseStartDate"), txt ("leaseEndDate"), txt ("tenantName"),
     txt ("landlordName"), txt ("propertyAddress")]
  optionalFields :=
    [txt ("securityDeposit"), txt ("utilities"), txt ("pets"), txt ("maintenance")]
  validityRules :=
    { maxAge := 365, requiredSignatures := [txt ("tenant"), txt ("landlord")],
      minDepositPercent := none, minLeaseTerm := some 30, validFormNumbers := none,
      minBalance := none, validTaxYears := none }

/-- The LTB entry. -/
def ltbConfig : SSConfig where
  requiredFields :=
    [txt ("formNumber"), txt ("tenantName"), txt ("landlordName"), txt ("propertyAddress"),
     txt ("issueDate")]
  optionalFields := [txt ("hearingDate"), txt ("reason"), txt ("amount")]
  validityRules :=
    { maxAge := 30, requiredSignatures := [txt ("applicant")],
      minDepositPercent := none, minLeaseTerm := none,
      validFormNumbers := some
        [txt ("N1"), txt ("N2"), txt ("N3"), txt ("N4"), txt ("N5"), txt ("N6"), txt ("N7"),
         txt ("N8"), txt ("N9"), txt ("N10"), txt ("N11"), txt ("N12"), txt ("N13"),
         txt ("N14"), txt ("T1"), txt ("T2"), txt ("T3"), txt ("T4"), txt ("T5"), txt ("T6"),
         txt ("T7")],
      minBalance := none, validTaxYears := none }

/-- The mortgage-statement entry. -/
def mortgageConfig : SSConfig where
  requiredFields :=
    [txt ("accountNumber"), txt ("statementDate"), txt ("principalBalance"),
     txt ("interestRate"), txt ("paymentAmount")]
  optionalFields := [txt ("maturityDate"), txt ("propertyAddress"), txt ("lenderName")]
  validityRules :=
    { maxAge := 90, requiredSignatures := [],
      minDepositPercent := none, minLeaseTerm := none, validFormNumbers := none,
      minBalance := some 0, validTaxYears := none }

/-- The notice-of-assessment entry. -/
def noaConfig : SSConfig where
  requiredFields :=
    [txt ("taxYear"), txt ("assessmentDate"), txt ("totalIncome"), txt ("taxOwed"),
     txt ("refundAmount")]
  optionalFields := [txt ("sin"), txt ("filingDate")]
  validityRules :=
    { maxAge := 1095, requiredSignatures := [],
      minDepositPercent := none, minLeaseTerm := none, validFormNumbers := none,
      minBalance := none, validTaxYears := some [2021, 2022, 2023, 2024] }

/-- Table lookup with the APS fallback
(`this.documentTypes[documentType] || this.documentTypes['Agreement…']`). -/
def documentTypes (dt : List Char) : SSConfig :=
  if dt = txt ("Agreement of Purchase and Sale (APS)") then apsConfig
  else if dt = txt ("Residential Lease Agreement") then leaseConfig
  else if dt = txt ("Landlord and Tenant Board Form") then ltbConfig
  else if dt = txt ("Mortgage Statement") then mortgageConfig
  else if dt = txt ("Notice of Assessment (CRA)") then noaConfig
  else apsConfig

/-- JS whitespace test used by the extractor scanners. -/
def jsWsp (c : Char) : Bool :=
  c == ' ' || c == '\t' || c == '\n' || c == '\x0d' || c == '\x0b' || c == '\x0c'

/-- Remove a literal prefix, or fail. -/
def stripLit : List Char → List Char → Option (List Char)
  | [], s => some s
  | _ :: _, [] => none
  | l :: ls, c :: cs => if c == l then stripLit ls cs else none

/-- Scan every suffix of the text for the first match of a positional matcher
(this is how a non-global JS regex finds its leftmost match). -/
def scanFor {α : Type} (f : List Char → Option α) : List Char → Option α
  | [] => f []
  | c :: cs =>
    match f (c :: cs) with
    | some x => some x
    | none => scanFor f cs

/-- The capture `[:\s]*([\d\/\-]+)` after a date label: skip colons and
whitespace, then take the (maximal, nonempty) run of digits, slashes and
dashes.  Maximal munch agrees with the backtracking JS engine here because the
character classes involved are disjoint. -/
def dateCapture (r : List Char) : Option (List Char) :=
  let r2 := r.dropWhile fun c => c == ':' || jsWsp c
  let ds := r2.takeWhile fun c => c.isDigit || c == '/' || c == '-'
  if ds.isEmpty then none else some ds

/-- Positional matcher for `/(issue\s*date|dated)[:\s]*([\d\/\-]+)/i` (applied
to the lower-cased text; the alternatives start with distinct characters, so
the alternation order cannot matter at one position). -/
def tryIssueDateAt (s : List Char) : Option (List Char) :=
  match
    (match stripLit (txt ("issue")) s with
     | some r1 => stripLit (txt ("date")) (r1.dropWhile jsWsp)
     | none => none) with
  | some r => dateCapture r
  | none =>
    match stripLit (txt ("dated")) s with
    | some r => dateCapture r
    | none => none

/-- Positional matcher for `/(closing\s*date|closes\s*on)[:\s]*([\d\/\-]+)/i`. -/
def tryClosingDateAt (s : List Char) : Option (List Char) :=
  match
    (match stripLit (txt ("closing")) s with
     | some r1 => stripLit (txt ("date")) (r1.dropWhile jsWsp)
     | none => none) with
  | some r => dateCapture r
  | none =>
    match
      (match stripLit (txt ("closes")) s with
       | some r1 => stripLit (txt ("on")) (r1.dropWhile jsWsp)
       | none => none) with
    | some r => dateCapture r
    | none => none

/-- Grab `\d{1,2}\/` (greedy) at the head, keeping the consumed characters. -/
def grab12Slash : List Char → Option (List Char × List Char)
  | a :: b :: c :: rest =>
      if a.isDigit && b.isDigit && c == '/' then some ([a, b, c], rest)
      else if a.isDigit && b == '/' then some ([a, b], c :: rest)
      else none
  | [a, b] => if a.isDigit && b == '/' then some ([a, b], []) else none
  | _ => none

/-- Grab exactly `\d{4}` at the head. -/
def grab4 : List Char → Option (List Char × List Char)
  | a :: b :: c :: d :: rest =>
      if a.isDigit && b.isDigit && c.isDigit && d.isDigit then some ([a, b, c, d], rest)
      else none
  | _ => none

/-- Grab exactly `\d{2}` at the head. -/
def grab2 : List Char → Option (List Char × List Char)
  | a :: b :: rest => if a.isDigit && b.isDigit then some ([a, b], rest) else none
  | _ => none

/-- Positional matcher for `\d{1,2}\/\d{1,2}\/\d{4}`, keeping the match. -/
def tryMMDDYYYYstr (s : List Char) : Option (List Char × List Char) :=
  match grab12Slash s with
  | none => none
  | some (m, r1) =>
    match grab12Slash r1 with
    | none => none
    | some (d, r2) =>
      match grab4 r2 with
      | none => none
      | some (y, r3) => some (m ++ d ++ y, r3)

/-- Positional matcher for `\d{4}-\d{2}-\d{2}`, keeping the match. -/
def tryISOstr (s : List Char) : Option (List Char × List Char) :=
  match grab4 s with
  | none => none
  | some (y, r1) =>
    match r1 with
    | '-' :: r2 =>
      match grab2 r2 with
      | none => none
      | some (mo, r3) =>
        match r3 with
        | '-' :: r4 =>
          match grab2 r4 with
          | none => none
          | some (dd, r5) => some (y ++ txt ("-") ++ mo ++ txt ("-") ++ dd, r5)
        | _ => none
    | _ => none

/-- One alternative of the global date pattern
`/(\d{1,2}\/\d{1,2}\/\d{4}|\d{4}-\d{2}-\d{2})/g`. -/
def tryEitherDate (s : List Char) : Option (List Char × List Char) :=
  match tryMMDDYYYYstr s with
  | some r => some r
  | none => tryISOstr s

/-- Global scan for the date pattern (fuel = text length, never exhausted by a
match of at least eight characters). -/
def scanDateStrsAux : Nat → List Char → List (List Char)
  | 0, _ => []
  | _ + 1, [] => []
  | n + 1, c :: cs =>
    match tryEitherDate (c :: cs) with
    | some (m, rest) => m :: scanDateStrsAux n rest
    | none => scanDateStrsAux n cs

/-- All date-shaped substrings, in order (`text.match(patterns.date)`). -/
def scanDateStrs (s : List Char) : List (List Char) :=
  scanDateStrsAux s.length s

/-- `extractDate(text, fieldName)`.  For `issueDate`/`closingDate` the result
is capture group 2 of the first match.  Any other field name falls back to the
global `patterns.date`, where `text.match` returns the array of matched
strings and `match[2] || match[1]` selects the third date in the text, else
the second, else nothing. -/
def extractDate (text fieldName : List Char) : Option (List Char) :=
  if fieldName = txt ("issueDate") then scanFor tryIssueDateAt (lowerStr text)
  else if fieldName = txt ("closingDate") then scanFor tryClosingDateAt (lowerStr text)
  else
    let ms := scanDateStrs text
    match ms.get? 2 with
    | some d => some d
    | none => ms.get? 1

/-- Digit value of a character. -/
def digitsToNat (l : List Char) : Nat :=
  l.foldl (fun a c => a * 10 + (c.toNat - 48)) 0

/-- The capture `[:\s]*\$?([\d,]+)` after an amount label:
`parseFloat(match[1].replace(/,/g, ''))`, with `none` for `NaN`. -/
def amountCapture (r : List Char) : Option Nat :=
  let r2 := r.dropWhile fun c => c == ':' || jsWsp c
  let r3 := match r2 with
    | '$' :: t => t
    | t => t
  let ds := r3.takeWhile fun c => c.isDigit || c == ','
  if ds.isEmpty then none
  else
    let digs := ds.filter Char.isDigit
    if digs.isEmpty then none else some (digitsToNat digs)

/-- `extractAmount(text, fieldName)` for the three supported field names
(`deposit`, `purchasePrice`, `rent`); any other name yields `null`. -/
def extractAmount (text fieldName : List Char) : Option Nat :=
  if fieldName = txt ("deposit") then
    scanFor (fun s => (stripLit (txt ("deposit")) s).bind amountCapture) (lowerStr text)
  else if fieldName = txt ("purchasePrice") then
    scanFor
      (fun s =>
        match s with
        | '$' :: r =>
          let ds := r.takeWhile fun c => c.isDigit || c == ','
          if ds.isEmpty then none
          else
            let digs := ds.filter Char.isDigit
            if digs.isEmpty then none else some (digitsToNat digs)
        | _ => none)
      text
  else if fieldName = txt ("rent")  then
    scanFor (fun s => (stripLit (txt ("rent")) s).bind amountCapture) (lowerStr text)
  else none

/-- Positional matcher for `form\s*([nNtT]\d+)` on the lower-cased text. -/
def tryFormAt (s : List Char) : Option (List Char) :=
  match stripLit (txt ("form")) s with
  | none => none
  | some r =>
    match r.dropWhile jsWsp with
    | c :: rest =>
      if c == 'n' || c == 't' then
        let ds := rest.takeWhile Char.isDigit
        if ds.isEmpty then none else some (c :: ds)
      else none
    | [] => none

/-- Positional matcher for the anchored alternative `^([nNtT]\d+)`. -/
def tryNTAt (s : List Char) : Option (List Char) :=
  match s with
  | c :: rest =>
    if c == 'n' || c == 't' then
      let ds := rest.takeWhile Char.isDigit
      if ds.isEmpty then none else some (c :: ds)
    else none
  | [] => none

/-- `extractFormNumber(text)`: first match of
`/form\s*([nNtT]\d+)|^([nNtT]\d+)/i`, upper-cased.  At position 0 the first
alternative is preferred; the `^`-anchored alternative only applies there. -/
def extractFormNumber (text : List Char) : Option (List Char) :=
  let f := lowerStr text
  let raw :=
    match tryFormAt f with
    | some g => some g
    | none =>
      match tryNTAt f with
      | some g => some g
      | none =>
        match f with
        | [] => none
        | _ :: cs => scanFor tryFormAt cs
  raw.map upperStr

/-- Split a captured date string into its parts at `/` and `-` separators
(consecutive separators produce empty parts, which make the date invalid). -/
def splitSeps : List Char → List (List Char)
  | [] => [[]]
  | c :: cs =>
    if c == '/' || c == '-' then [] :: splitSeps cs
    else
      match splitSeps cs with
      | [] => [[c]]
      | p :: ps => (c :: p) :: ps

/-- Day-granularity value of `new Date(str)` for the `[\d\/\-]+` strings the
extractors capture, modelling the forms the V8 date parsers accept for such
strings: month/day/four-digit-year with either separator (`06/15/2024`,
`12-15-2024`), four-digit-year first (`2024-06-15`, `2024/6/15`), a bare
four-digit year (January 1 of that year), and month/day without a year
(`12/15`, which V8 parses with year 2001).  `jsDateValue` supplies the
month-1–12 and day-1–31 validation shared by all forms.  Not modelled (and
treated as Invalid here): two-digit years, and the stricter day-in-month
validation of the ISO-only path. -/
def jsParseDateStr (s : List Char) : Option Nat :=
  let parts := splitSeps s
  if parts.all fun p => !p.isEmpty && p.all Char.isDigit then
    match parts with
    | [y] =>
      if y.length = 4 then AIAnalyzer.jsDateValue (1, 1, digitsToNat y) else none
    | [m, d] =>
      if m.length ≤ 2 ∧ d.length ≤ 2 then
        AIAnalyzer.jsDateValue (digitsToNat m, digitsToNat d, 2001)
      else none
    | [a, b, c] =>
      if a.length = 4 ∧ b.length ≤ 2 ∧ c.length ≤ 2 then
        AIAnalyzer.jsDateValue (digitsToNat b, digitsToNat c, digitsToNat a)
      else if a.length ≤ 2 ∧ b.length ≤ 2 ∧ c.length = 4 then
        AIAnalyzer.jsDateValue (digitsToNat a, digitsToNat b, digitsToNat c)
      else none
    | _ => none
  else none

/-- JS `x || d` for a numeric rule field (0 and absent are both falsy). -/
def orFalsyNat (o : Option Nat) (d : Nat) : Nat :=
  match o with
  | some n => if n = 0 then d else n
  | none => d

/-- Integer rendered as text (for interpolated issue messages). -/
def intStr (i : ℤ) : List Char :=
  (toString i).data

/-- The issue-date fallback chain over the three `extractDate` calls (field
names `issueDate`, then `date`, then `created`). -/
def issueDateOf (text : List Char) : Option (List Char) :=
  match extractDate text (txt ("issueDate")) with
  | some d => some d
  | none =>
    match extractDate text (txt ("date")) with
    | some d => some d
    | none => extractDate text (txt ("created"))

/-- The document-age block of `checkDocumentValidity` (lines 585–607):
`(deduction, issues, warnings, isExpired, ageInDays)`.  `ageInDays` is `none`
when no issue date was found or the date string is invalid (a `NaN` age
compares false in both branches, so nothing is deducted then). -/
def agePart (now : Nat) (text : List Char) (rules : SSValidityRules) :
    ℤ × List (List Char) × List (List Char) × Bool × Option ℤ :=
  match issueDateOf text with
  | some ds =>
    match jsParseDateStr ds with
    | some v =>
      let age : ℤ := (now : ℤ) - (v : ℤ)
      let maxAge := orFalsyNat (some rules.maxAge) 365
      if (maxAge : ℤ) < age then
        (30,
         [txt ("Document is ") ++ intStr age ++ txt (" days old, exceeds maximum age of ")
            ++ intStr (maxAge : ℤ) ++ txt (" days")],
         [], true, some age)
      else if (maxAge : ℚ) * (8/10) < (age : ℚ) then
        (10, [], [txt ("Document is ") ++ intStr age ++ txt (" days old, approaching expiry")],
         false, some age)
      else (0, [], [], false, some age)
    | none => (0, [], [], false, none)
  | none =>
    (5, [], [txt ("No issue date found, cannot determine document age")], false, none)

/-- One iteration of the signature loop of `checkDocumentValidity` (lines
609–620), accumulating `(deduction, issues, present, missing)`. -/
def sigStep (text : List Char)
    (acc : ℤ × List (List Char) × List (List Char) × List (List Char)) (sig : List Char) :
    ℤ × List (List Char) × List (List Char) × List (List Char) :=
  if FunctionApp.checkSignature text sig then
    (acc.1, acc.2.1, acc.2.2.1 ++ [sig], acc.2.2.2)
  else
    (acc.1 + 20, acc.2.1 ++ [txt ("Missing required signature: ") ++ sig], acc.2.2.1,
     acc.2.2.2 ++ [sig])

/-- The APS deposit block (lines 622–634): `(deduction, issues)`.  The numeric
interpolation `depositPercent.toFixed(1)` is not rendered exactly (the digits
differ, which no claim depends on). -/
def depositPart (text dt : List Char) (rules : SSValidityRules) : ℤ × List (List Char) :=
  if dt = txt ("Agreement of Purchase and Sale (APS)") then
    match extractAmount text (txt ("deposit")), extractAmount text (txt ("purchasePrice")) with
    | some dep, some pp =>
      if dep ≠ 0 && pp ≠ 0 then
        let pct : ℚ := (dep : ℚ) / (pp : ℚ) * 100
        let minD := orFalsyNat rules.minDepositPercent 5
        if pct < (minD : ℚ) then
          (15, [txt ("Deposit amount is below minimum required (") ++ intStr (minD : ℤ)
            ++ txt ("%)")])
        else (0, [])
      else (0, [])
    | _, _ => (0, [])
  else (0, [])

/-- The LTB form-number block (lines 636–645): `(deduction, issues)`. -/
def formPart (text dt : List Char) (rules : SSValidityRules) : ℤ × List (List Char) :=
  if dt = txt ("Landlord and Tenant Board Form") then
    match extractFormNumber text, rules.validFormNumbers with
    | some fnr, some valid =>
      if fnr ∈ valid then (0, [])
      else (25, [txt ("Invalid form number: ") ++ fnr])
    | _, _ => (0, [])
  else (0, [])

/-- Result record of the `simple-server` `checkDocumentValidity`. -/
structure SSValidity where
  status : List Char
  score : ℤ
  issues : List (List Char)
  warnings : List (List Char)
  sigPresent : List (List Char)
  sigMissing : List (List Char)
  isExpired : Bool
  ageInDays : Option ℤ
deriving DecidableEq

/-- `checkDocumentValidity(documentText, documentType, extractedData)`: age,
signature, deposit and form-number deductions from 100, then the final status
ladder (`<50` Invalid, `<80` Potentially Invalid, issues → Valid with Issues,
else the Expired/Valid status set earlier). -/
def checkDocumentValidity (now : Nat) (text dt : List Char) : SSValidity :=
  let cfg := documentTypes dt
  let rules := cfg.validityRules
  let age := agePart now text rules
  let sig := rules.requiredSignatures.foldl (sigStep text) (0, [], [], [])
  let dep := depositPart text dt rules
  let frm := formPart text dt rules
  let score : ℤ := 100 - age.1 - sig.1 - dep.1 - frm.1
  let issues := age.2.1 ++ sig.2.1 ++ dep.2 ++ frm.2
  let warnings := age.2.2.1
  let isExp := age.2.2.2.1
  let status :=
    if score < 50 then txt ("Invalid")
    else if score < 80 then txt ("Potentially Invalid")
    else if issues.length > 0 then txt ("Valid with Issues")
    else if isExp then txt ("Expired")
    else txt ("Valid")
  { status := status, score := score, issues := issues, warnings := warnings,
    sigPresent := sig.2.2.1, sigMissing := sig.2.2.2, isExpired := isExp,
    ageInDays := age.2.2.2.2 }

theorem sigFold_deduction (text : List Char) (sigs : List (List Char))
    (d : ℤ) (i p m : List (List Char)) :
    (sigs.foldl (sigStep text) (d, i, p, m)).1 =
      d + 20 * ((sigs.filter fun r => !FunctionApp.checkSignature text r).length : ℤ) := by
  induction sigs generalizing d i p m with
  | nil => simp
  | cons a as ih =>
    by_cases h : FunctionApp.checkSignature text a
    · simp [List.foldl_cons, sigStep, h, ih]
    · simp [List.foldl_cons, sigStep, h, ih]
      ring

/-- The age deduction is between 0 and 30. -/
theorem agePart_le (now : Nat) (text : List Char) (rules : SSValidityRules) :
    0 ≤ (agePart now text rules).1 ∧ (agePart now text rules).1 ≤ 30 := by
  unfold agePart
  rcases issueDateOf text with _ | ds
  · norm_num
  · cases h : jsParseDateStr ds with
    | none => simp [h]
    | some v =>
      simp only [h]
      split_ifs <;> norm_num

/-- The deposit deduction is between 0 and 15, and 0 unless the type is APS. -/
theorem depositPart_le (text dt : List Char) (rules : SSValidityRules) :
    (0 ≤ (depositPart text dt rules).1 ∧ (depositPart text dt rules).1 ≤ 15) ∧
      (dt ≠ txt ("Agreement of Purchase and Sale (APS)") → (depositPart text dt rules).1 = 0) := by
  by_cases hdt : dt = txt ("Agreement of Purchase and Sale (APS)")
  · refine ⟨?_, fun hne => absurd hdt hne⟩
    simp only [depositPart, if_pos hdt]
    rcases extractAmount text (txt ("deposit")) with _ | dep
    · norm_num
    rcases extractAmount text (txt ("purchasePrice")) with _ | pp
    · norm_num
    dsimp only
    split_ifs <;> norm_num
  · simp only [depositPart, if_neg hdt]
    norm_num

/-- The form deduction is between 0 and 25, and 0 unless the type is LTB. -/
theorem formPart_le (text dt : List Char) (rules : SSValidityRules) :
    (0 ≤ (formPart text dt rules).1 ∧ (formPart text dt rules).1 ≤ 25) ∧
      (dt ≠ txt ("Landlord and Tenant Board Form") → (formPart text dt rules).1 = 0) := by
  by_cases hdt : dt = txt ("Landlord and Tenant Board Form")
  · refine ⟨?_, fun hne => absurd hdt hne⟩
    simp only [formPart, if_pos hdt]
    rcases extractFormNumber text with _ | fnr
    · norm_num
    rcases rules.validFormNumbers with _ | valid
    · norm_num
    dsimp only
    split_ifs <;> norm_num
  · simp only [formPart, if_neg hdt]
    norm_num

end SimpleServer

namespace AIAnalyzer

/-!
Explicit-state embedding of the mutable parts of `AIDocumentAnalyzer`
(`this.documentPatterns`, `this.learningHistory`) and of the `analyzeDocument`
pipeline (lines 173–210): every JS method becomes a function of the state; a
method that writes returns the updated state.  The metadata fields of `analyzeDocument`
fields (`correlationId`, `timestamp`, jurisdiction and the date strings) are
derived display values and are not part of this record.
-/

/-- One entry of `this.learningHistory`. -/
structure LearnEntry where
  filename : List Char
  classification : Classification
  completeness : AICompleteness
  validity : AIValidity
deriving DecidableEq

/-- The mutable instance state of `AIDocumentAnalyzer`. -/
structure AnalyzerState where
  documentPatterns : List (List Char × AIProfile)
  learningHistory : List LearnEntry

/-- `learnFromAnalysis(...)` (lines 529–542): append the entry and keep only
the last 1000 entries.  It writes `learningHistory` only. -/
def learnFromAnalysis (st : AnalyzerState) (e : LearnEntry) : AnalyzerState :=
  let h := st.learningHistory ++ [e]
  { st with learningHistory := if 1000 < h.length then h.drop (h.length - 1000) else h }

/-- `extractTextFromFile(file)` (lines 378–410): the mock OCR, keyed on the
file name only. -/
def extractTextFromFile (filename : List Char) : List Char :=
  let f := lowerStr filename
  if containsSub f (txt ("aps")) || containsSub f (txt ("purchase")) then
    txt ("AGREEMENT OF PURCHASE AND SALE\n            This agreement is made between John Doe (Buyer) and Jane Smith (Seller)\n            Purchase Price: $750,000\n            Closing Date: 06/15/2024\n            Property Address: 123 Main Street, Toronto, ON\n            Deposit Amount: $37,500")
  else if containsSub f (txt ("a2")) then
    txt ("APPLICATION TO INCREASE RENT\n            FORM A2\n            Landlord and Tenant Board\n            Landlord: ABC Properties\n            Tenant: John Smith\n            Property Address: 456 Oak Street\n            Current Rent: $2,000\n            Proposed Rent: $2,200")
  else if containsSub f (txt ("lease")) then
    txt ("RESIDENTIAL LEASE AGREEMENT\n            Tenant: John Doe\n            Landlord: Jane Smith\n            Property Address: 789 Pine Street\n            Monthly Rent: $2,500\n            Lease Term: 12 months\n            Security Deposit: $2,500")
  else
    txt ("Document content not available")

/-- `analyzeDocument(file, filename)`: extract text, classify against the
pattern table of the state, analyze completeness and validity, then learn. -/
def analyzeDocument (now : Nat) (st : AnalyzerState) (filename : List Char) :
    (Classification × AICompleteness × AIValidity) × AnalyzerState :=
  let text := extractTextFromFile filename
  let c := classifyDocument st.documentPatterns text filename
  let comp := analyzeFieldCompleteness st.documentPatterns text c.documentType
  let v := analyzeValidity now text c.documentType
  ((c, comp, v), learnFromAnalysis st ⟨filename, c, comp, v⟩)

/-- No-hit condition for one pattern record: no visual indicator occurs in the
upper-cased text, no text regex matches, and the filename check fails. -/
def profileNoHit (text fn : List Char) (p : AIProfile) : Bool :=
  (p.visualIndicators.all fun ind => !containsSub (upperStr text) ind) &&
  (p.textPatterns.all fun r => !Rx.itest r text) && !filenameHit fn p

/-- No-hit condition over the whole pattern table. -/
def aiNoHit (text fn : List Char) : Bool :=
  documentPatterns.all fun kv => profileNoHit text fn kv.2

theorem profileConfidence_eq_zero (text fn : List Char) (p : AIProfile)
    (h : profileNoHit text fn p = true) : profileConfidence text fn p = 0 := by
  simp only [profileNoHit, Bool.and_eq_true, List.all_eq_true, Bool.not_eq_true'] at h
  obtain ⟨⟨h1, h2⟩, h3⟩ := h
  have hs : profileScore text fn p = 0 := by
    unfold profileScore
    rw [List.countP_eq_zero.mpr ?_, List.countP_eq_zero.mpr ?_]
    · simp [h3]
    · intro r hr
      simp [h2 r hr]
    · intro i hi
      simp [h1 i hi]
  unfold profileConfidence
  split_ifs
  · rw [hs]
    exact zero_div _
  · rfl

theorem classify_fold_noHit (text fn : List Char) (ps : List (List Char × AIProfile))
    (best : Classification) (hb : 0 ≤ best.confidence)
    (h : ∀ kv ∈ ps, profileNoHit text fn kv.2 = true) :
    ps.foldl (classifyStep text fn) best = best := by
  induction ps with
  | nil => rfl
  | cons a as ih =>
    have hc := profileConfidence_eq_zero text fn a.2 (h a (by simp))
    have hstep : classifyStep text fn best a = best := by
      simp only [classifyStep]
      rw [hc, if_neg (not_lt.mpr hb)]
    rw [List.foldl_cons, hstep]
    exact ih fun kv hkv => h kv (by simp [hkv])

/-- Under the no-hit condition, `classifyDocument` keeps its initial best
match: the `Unknown Document` fallback with confidence 0. -/
theorem classifyDocument_noHit (text fn : List Char) (h : aiNoHit text fn = true) :
    classifyDocument documentPatterns text fn =
      { documentType := txt ("Unknown Document"), confidence := 0,
        description := txt ("Unable to determine document type") } := by
  simp only [aiNoHit, List.all_eq_true] at h
  exact classify_fold_noHit text fn documentPatterns _ le_rfl h

end AIAnalyzer

namespace MLPlugins

/-- No-hit condition for one model: no pattern and no keyword occurs in the
lower-cased filename. -/
def modelNoHit (f : List Char) (m : MLModel) : Bool :=
  (m.patterns.all fun p => !containsSub f (lowerStr p)) &&
  (m.keywords.all fun k => !containsSub f (lowerStr k))

/-- No-hit condition over all models. -/
def modelsNoHit (fn : List Char) : Bool :=
  models.all fun kv => modelNoHit (lowerStr fn) kv.2

/-- The filename substrings consulted by `analyzeFileContent`. -/
def heurStrings : List (List Char) :=
  [txt ("a2"), txt ("a-2"), txt ("lease"), txt ("rental"), txt ("ltb"), txt ("landlord"),
   txt ("tenant"), txt ("waiver"), txt ("fee"), txt ("mortgage"), txt ("loan"),
   txt ("insurance"), txt ("policy"), txt ("contract"), txt ("agreement"), txt ("invoice"),
   txt ("bill"), txt ("receipt"), txt ("payment"), txt ("statement"), txt ("account"),
   txt ("report"), txt ("analysis"), txt ("letter"), txt ("correspondence"), txt ("form"),
   txt ("application")]

/-- No-hit condition for the `analyzeFileContent` heuristics. -/
def heurNoHit (fn : List Char) : Bool :=
  heurStrings.all fun k => !containsSub (lowerStr fn) k

theorem calculateScore_eq_zero (f : List Char) (m : MLModel) (h : modelNoHit f m = true) :
    calculateScore f m = 0 := by
  simp only [modelNoHit, Bool.and_eq_true, List.all_eq_true, Bool.not_eq_true'] at h
  obtain ⟨h1, h2⟩ := h
  unfold calculateScore
  rw [List.countP_eq_zero.mpr ?_, List.countP_eq_zero.mpr ?_]
  · norm_num
  · intro k hk
    simp [h2 k hk]
  · intro p hp
    simp [h1 p hp]

theorem mlClassify_fold_noHit (f : List Char) (ps : List (List Char × MLModel)) (best : MLResult)
    (hb : 0 ≤ best.confidence) (h : ∀ kv ∈ ps, modelNoHit f kv.2 = true) :
    ps.foldl (classifyStep f) best = best := by
  induction ps with
  | nil => rfl
  | cons a as ih =>
    have hc := calculateScore_eq_zero f a.2 (h a (by simp))
    have hstep : classifyStep f best a = best := by
      simp only [classifyStep]
      rw [hc, if_neg (not_lt.mpr hb)]
    rw [List.foldl_cons, hstep]
    exact ih fun kv hkv => h kv (by simp [hkv])

theorem analyzeFileContent_noHit (fn : List Char) (h : heurNoHit fn = true) :
    analyzeFileContent fn = { type := txt ("Unknown Document"), confidence := 2/10 } := by
  have hc : ∀ k ∈ heurStrings, containsSub (lowerStr fn) k = false := by
    simpa [heurNoHit, List.all_eq_true] using h
  simp only [heurStrings, List.mem_cons, List.not_mem_nil, or_false, forall_eq_or_imp,
    forall_eq] at hc
  obtain ⟨g1, g2, g3, g4, g5, g6, g7, g8, g9, g10, g11, g12, g13, g14, g15, g16, g17, g18,
    g19, g20, g21, g22, g23, g24, g25, g26, g27⟩ := hc
  simp [analyzeFileContent, g1, g2, g3, g4, g5, g6, g7, g8, g9, g10, g11, g12, g13, g14, g15,
    g16, g17, g18, g19, g20, g21, g22, g23, g24, g25, g26, g27]

/-- Under the no-hit conditions, `classify` ends at the generic
`General Legal Document` fallback with confidence 0.3. -/
theorem classify_noHit (fn : List Char) (h1 : modelsNoHit fn = true) (h2 : heurNoHit fn = true) :
    classify fn = { type := txt ("General Legal Document"), confidence := 3/10 } := by
  simp only [modelsNoHit, List.all_eq_true] at h1
  have hfold := mlClassify_fold_noHit (lowerStr fn) models
    { type := txt ("Unknown Document"), confidence := 3/10 } (by norm_num) h1
  simp only [classify, hfold, analyzeFileContent_noHit fn h2]
  norm_num

end MLPlugins

namespace FunctionApp

/-- No-hit condition for the `identifyDocumentType` filename heuristics. -/
def faNoHit (fn : List Char) : Bool :=
  [txt ("purchase"), txt ("sale"), txt ("aps"), txt ("lease"), txt ("rental"), txt ("n1"),
   txt ("n4"), txt ("ltb")].all fun k => !containsSub (lowerStr fn) k

/-- Under the no-hit condition, `identifyDocumentType` returns the generic
`Legal Document` fallback, whose confidence is 0.60. -/
theorem identifyDocumentType_noHit (text fn : List Char) (h : faNoHit fn = true) :
    identifyDocumentType text fn =
      { documentType := txt ("Legal Document"), confidence := 6/10,
        jurisdiction := txt ("Ontario") } := by
  simp only [faNoHit, List.all_cons, List.all_nil, Bool.and_eq_true, Bool.not_eq_true'] at h
  obtain ⟨g1, g2, g3, g4, g5, g6, g7, g8, _⟩ := h
  simp [identifyDocumentType, g1, g2, g3, g4, g5, g6, g7, g8]

end FunctionApp

namespace SimpleServer

/-- Every `simple-server` entry lists at most two required signature roles. -/
theorem ssDocumentTypes_sigs_le_two (dt : List Char) :
    (documentTypes dt).validityRules.requiredSignatures.length ≤ 2 := by
  unfold documentTypes
  repeat' split
  all_goals decide

end SimpleServer

theorem filter_length_mono {α : Type} (p q : α → Bool) (l : List α)
    (h : ∀ a ∈ l, p a = true → q a = true) :
    (l.filter p).length ≤ (l.filter q).length := by
  induction l with
  | nil => simp
  | cons a as ih =>
    have ihs := ih fun x hx => h x (by simp [hx])
    by_cases hp : p a = true
    · rw [List.filter_cons_of_pos hp, List.filter_cons_of_pos (h a (by simp) hp)]
      simpa using ihs
    · rw [List.filter_cons_of_neg (by simpa using hp)]
      cases hq : q a
      · rw [List.filter_cons_of_neg (by simp [hq])]
        exact ihs
      · rw [List.filter_cons_of_pos hq]
        exact le_trans ihs (by simp)

/-- C1: in the unweighted completeness variant (`function-app.js`
`checkFieldCompleteness`), for every text and document type the completeness
score equals `round(100 × presentRequiredCount / totalRequiredCount)`; and
whenever every required-field regex matching a first text also matches a
second text, the completeness score of the second text is at least that of
the first. -/
theorem C1_completeness_round_and_monotone :
    (∀ dt text : List Char,
      (FunctionApp.checkFieldCompleteness text dt).score =
        round ((100 * (((FunctionApp.documentTypes dt).requiredFields.filter
              fun f => FunctionApp.isFieldPresent text f).length : ℚ)) /
          ((FunctionApp.documentTypes dt).requiredFields.length : ℚ))) ∧
    (∀ dt t1 t2 : List Char,
      (∀ f ∈ (FunctionApp.documentTypes dt).requiredFields,
        FunctionApp.isFieldPresent t1 f = true → FunctionApp.isFieldPresent t2 f = true) →
      (FunctionApp.checkFieldCompleteness t1 dt).score ≤
        (FunctionApp.checkFieldCompleteness t2 dt).score) := by
  constructor
  · intro dt text
    simp only [FunctionApp.checkFieldCompleteness]
    congr 1
    ring
  · intro dt t1 t2 h
    have hpos := FunctionApp.documentTypes_requiredFields_pos dt
    have hlen := filter_length_mono (fun f => FunctionApp.isFieldPresent t1 f)
      (fun f => FunctionApp.isFieldPresent t2 f) (FunctionApp.documentTypes dt).requiredFields h
    simp only [FunctionApp.checkFieldCompleteness]
    have hn : (0 : ℚ) < ((FunctionApp.documentTypes dt).requiredFields.length : ℚ) := by
      exact_mod_cast hpos
    have hl : ((((FunctionApp.documentTypes dt).requiredFields.filter
          fun f => FunctionApp.isFieldPresent t1 f).length : ℚ)) ≤
        (((FunctionApp.documentTypes dt).requiredFields.filter
          fun f => FunctionApp.isFieldPresent t2 f).length : ℚ) := by
      exact_mod_cast hlen
    have hq : (((FunctionApp.documentTypes dt).requiredFields.filter
          fun f => FunctionApp.isFieldPresent t1 f).length : ℚ) /
          ((FunctionApp.documentTypes dt).requiredFields.length : ℚ) * 100 ≤
        (((FunctionApp.documentTypes dt).requiredFields.filter
          fun f => FunctionApp.isFieldPresent t2 f).length : ℚ) /
          ((FunctionApp.documentTypes dt).requiredFields.length : ℚ) * 100 := by
      gcongr
    rw [round_eq, round_eq]
    exact Int.floor_le_floor (by linarith)

/-- C1 witness: on the APS profile, the empty text satisfies the subset
hypothesis against the text `buyer x`, and its score is no larger. -/
theorem C1_witness :
    (∀ f ∈ (FunctionApp.documentTypes
        (txt ("Agreement of Purchase and Sale (APS)"))).requiredFields,
      FunctionApp.isFieldPresent (txt ("")) f = true →
        FunctionApp.isFieldPresent (txt ("buyer x")) f = true) ∧
    (FunctionApp.checkFieldCompleteness (txt (""))
        (txt ("Agreement of Purchase and Sale (APS)"))).score ≤
      (FunctionApp.checkFieldCompleteness (txt ("buyer x"))
        (txt ("Agreement of Purchase and Sale (APS)"))).score :=
  ⟨by decide, C1_completeness_round_and_monotone.2 _ _ _ (by decide)⟩

/-- C2: in all three validity checkers (`AIDocumentAnalyzer.analyzeValidity`,
`function-app.js` `checkDocumentValidity` and `simple-server.js`
`checkDocumentValidity`), the returned score lies between 0 and 100 for every
input text, document type and current time, no matter which penalty
deductions apply. -/
theorem C2_validity_score_in_range :
    (∀ (now : Nat) (text dt : List Char),
      0 ≤ (AIAnalyzer.analyzeValidity now text dt).score ∧
        (AIAnalyzer.analyzeValidity now text dt).score ≤ 100) ∧
    (∀ text dt : List Char,
      0 ≤ (FunctionApp.checkDocumentValidity text dt).score ∧
        (FunctionApp.checkDocumentValidity text dt).score ≤ 100) ∧
    (∀ (now : Nat) (text dt : List Char),
      0 ≤ (SimpleServer.checkDocumentValidity now text dt).score ∧
        (SimpleServer.checkDocumentValidity now text dt).score ≤ 100) := by
  refine ⟨?_, ?_, ?_⟩
  · intro now text dt
    simp only [AIAnalyzer.analyzeValidity]
    refine ⟨le_max_left 0 _, max_le (by norm_num) ?_⟩
    split_ifs <;> norm_num
  · intro text dt
    have hm : ((FunctionApp.documentTypes dt).validityRules.requiredSignatures.filter
          fun r => !FunctionApp.checkSignature text r).length ≤ 2 :=
      le_trans (List.length_filter_le _ _) (FunctionApp.documentTypes_sigs_le_two dt)
    simp only [FunctionApp.checkDocumentValidity, FunctionApp.sigFold_eq]
    constructor <;> split_ifs <;> omega
  · intro now text dt
    obtain ⟨ha0, ha30⟩ :=
      SimpleServer.agePart_le now text (SimpleServer.documentTypes dt).validityRules
    obtain ⟨⟨hd0, hd15⟩, hdne⟩ :=
      SimpleServer.depositPart_le text dt (SimpleServer.documentTypes dt).validityRules
    obtain ⟨⟨hf0, hf25⟩, hfne⟩ :=
      SimpleServer.formPart_le text dt (SimpleServer.documentTypes dt).validityRules
    have hsig := SimpleServer.sigFold_deduction text
      (SimpleServer.documentTypes dt).validityRules.requiredSignatures 0 [] [] []
    have hmlen := List.length_filter_le
      (fun r => !FunctionApp.checkSignature text r)
      (SimpleServer.documentTypes dt).validityRules.requiredSignatures
    simp only [SimpleServer.checkDocumentValidity, hsig]
    by_cases hAPS : dt = txt ("Agreement of Purchase and Sale (APS)")
    · have hlen : (SimpleServer.documentTypes dt).validityRules.requiredSignatures.length = 2 := by
        rw [hAPS]; decide
      have hfrm := hfne (by rw [hAPS]; decide)
      rw [hlen] at hmlen
      constructor <;> omega
    · by_cases hLTB : dt = txt ("Landlord and Tenant Board Form")
      · have hlen :
            (SimpleServer.documentTypes dt).validityRules.requiredSignatures.length = 1 := by
          rw [hLTB]; decide
        have hdep := hdne (by rw [hLTB]; decide)
        rw [hlen] at hmlen
        constructor <;> omega
      · have hlen := SimpleServer.ssDocumentTypes_sigs_le_two dt
        have hdep := hdne hAPS
        have hfrm := hfne hLTB
        have hmlen2 : ((SimpleServer.documentTypes dt).validityRules.requiredSignatures.filter
            fun r => !FunctionApp.checkSignature text r).length ≤ 2 := le_trans hmlen hlen
        constructor <;> omega

/-- C3 counterexample: the `AIDocumentAnalyzer.analyzeFieldCompleteness`
status ladder (cited by the claim) assigns a completeness score of 90 the
status `Mostly Complete`, not `Complete`: its buckets are `<50`, `<80`,
`<100` rather than the ≥90/≥70/≥50 thresholds the claim states. -/
theorem C3_counterexample :
    AIAnalyzer.aiCompletenessStatus 90 = txt ("Mostly Complete") ∧
      ¬ AIAnalyzer.aiCompletenessStatus 90 = txt ("Complete") := by decide

/-- C3 (amended): in the `function-app.js` `DocumentAnalyzer` cited by the
claim, the bucket boundaries are exactly as stated — 90 is `Complete`, 89
`Mostly Complete`, 70 `Mostly Complete`, 69 `Partially Complete`, 50
`Partially Complete`, 49 `Incomplete`, and a validity score of 90 stays in
the `Valid` bucket — while the completeness ladder of `AIDocumentAnalyzer`,
the other variant the claim cites, instead maps 90 to `Mostly Complete` and
only 100 to `Complete`. -/
theorem C3_status_bucket_boundaries :
    FunctionApp.completenessStatus 90 = txt ("Complete") ∧
    FunctionApp.completenessStatus 89 = txt ("Mostly Complete") ∧
    FunctionApp.completenessStatus 70 = txt ("Mostly Complete") ∧
    FunctionApp.completenessStatus 69 = txt ("Partially Complete") ∧
    FunctionApp.completenessStatus 50 = txt ("Partially Complete") ∧
    FunctionApp.completenessStatus 49 = txt ("Incomplete") ∧
    FunctionApp.validityStatus 90 0 = txt ("Valid") ∧
    FunctionApp.validityStatus 90 1 = txt ("Valid with Issues") ∧
    FunctionApp.validityStatus 79 0 = txt ("Potentially Invalid") ∧
    AIAnalyzer.aiCompletenessStatus 90 = txt ("Mostly Complete") ∧
    AIAnalyzer.aiCompletenessStatus 100 = txt ("Complete") := by decide

/-- C4 counterexample: the filename `zzz` (with empty text) contains none of
the indicator keywords, phrases or regex-pattern material of any profile in
any of the three classifiers, yet the `identifyDocumentType` of
`function-app.js` returns
its fallback with confidence 0.60, which is not at most 0.4. -/
theorem C4_counterexample :
    FunctionApp.faNoHit (txt ("zzz")) = true ∧
    AIAnalyzer.aiNoHit (txt ("")) (txt ("zzz")) = true ∧
    MLPlugins.modelsNoHit (txt ("zzz")) = true ∧
    MLPlugins.heurNoHit (txt ("zzz")) = true ∧
    (FunctionApp.identifyDocumentType (txt ("")) (txt ("zzz"))).confidence = 6/10 ∧
    ¬ ((6 : ℚ)/10 ≤ 4/10) :=
  ⟨by decide, by decide, by decide, by decide, rfl, by norm_num⟩

/-- C4 (amended): for inputs hitting no indicator keyword, phrase or pattern,
`AIDocumentAnalyzer.classifyDocument` returns `Unknown Document` with
confidence 0 and the ML-plugin classifier returns `General Legal Document`
with confidence 0.3 — both at most 0.4 — but the `identifyDocumentType` of
`function-app.js` returns its generic `Legal Document` fallback with
confidence 0.60, above the claimed 0.4 bound. -/
theorem C4_classifier_fallbacks :
    (∀ text fn : List Char, AIAnalyzer.aiNoHit text fn = true →
      AIAnalyzer.classifyDocument AIAnalyzer.documentPatterns text fn =
        { documentType := txt ("Unknown Document"), confidence := 0,
          description := txt ("Unable to determine document type") } ∧
      (AIAnalyzer.classifyDocument AIAnalyzer.documentPatterns text fn).confidence ≤ 4/10) ∧
    (∀ fn : List Char, MLPlugins.modelsNoHit fn = true → MLPlugins.heurNoHit fn = true →
      MLPlugins.classify fn = { type := txt ("General Legal Document"), confidence := 3/10 } ∧
      (MLPlugins.classify fn).confidence ≤ 4/10) ∧
    (∀ text fn : List Char, FunctionApp.faNoHit fn = true →
      FunctionApp.identifyDocumentType text fn =
        { documentType := txt ("Legal Document"), confidence := 6/10,
          jurisdiction := txt ("Ontario") }) := by
  refine ⟨?_, ?_, fun text fn h => FunctionApp.identifyDocumentType_noHit text fn h⟩
  · intro text fn h
    have hc := AIAnalyzer.classifyDocument_noHit text fn h
    exact ⟨hc, by rw [hc]; norm_num⟩
  · intro fn h1 h2
    have hc := MLPlugins.classify_noHit fn h1 h2
    exact ⟨hc, by rw [hc]; norm_num⟩

/-- C4 witness: the amended statement applied to the concrete no-hit input
(empty text, filename `zz`). -/
theorem C4_witness :
    (AIAnalyzer.aiNoHit (txt ("")) (txt ("zz")) = true ∧
      AIAnalyzer.classifyDocument AIAnalyzer.documentPatterns (txt ("")) (txt ("zz")) =
        { documentType := txt ("Unknown Document"), confidence := 0,
          description := txt ("Unable to determine document type") }) ∧
    (MLPlugins.modelsNoHit (txt ("zz")) = true ∧ MLPlugins.heurNoHit (txt ("zz")) = true ∧
      MLPlugins.classify (txt ("zz")) =
        { type := txt ("General Legal Document"), confidence := 3/10 }) ∧
    (FunctionApp.faNoHit (txt ("zz")) = true ∧
      FunctionApp.identifyDocumentType (txt ("")) (txt ("zz")) =
        { documentType := txt ("Legal Document"), confidence := 6/10,
          jurisdiction := txt ("Ontario") }) :=
  ⟨⟨by decide, (C4_classifier_fallbacks.1 _ _ (by decide)).1⟩,
   ⟨by decide, by decide, (C4_classifier_fallbacks.2.1 _ (by decide) (by decide)).1⟩,
   ⟨by decide, C4_classifier_fallbacks.2.2 _ _ (by decide)⟩⟩

/-- C5 counterexample: classifying the empty string (empty text and empty
filename, which matches no heuristic) through the `identifyDocumentType` of
`function-app.js` yields confidence 0.60, which is not at most 0.3. -/
theorem C5_counterexample :
    FunctionApp.identifyDocumentType (txt ("")) (txt ("")) =
      { documentType := txt ("Legal Document"), confidence := 6/10,
        jurisdiction := txt ("Ontario") } ∧
    ¬ ((6 : ℚ)/10 ≤ 3/10) :=
  ⟨rfl, by norm_num⟩

/-- C5 (amended): on the empty string, `AIDocumentAnalyzer` returns the
`Unknown Document` fallback with confidence 0 ≤ 0.3 and completeness score 0,
and the ML-plugin classifier returns `General Legal Document` with confidence
exactly 0.3; but the `identifyDocumentType` of `function-app.js` returns `Legal
Document` with confidence 0.60 (its field-completeness score on the empty
text is still 0). -/
theorem C5_empty_input_results :
    AIAnalyzer.classifyDocument AIAnalyzer.documentPatterns (txt ("")) (txt ("")) =
      { documentType := txt ("Unknown Document"), confidence := 0,
        description := txt ("Unable to determine document type") } ∧
    (AIAnalyzer.analyzeFieldCompleteness AIAnalyzer.documentPatterns (txt (""))
      (txt ("Unknown Document"))).score = 0 ∧
    MLPlugins.classify (txt ("")) =
      { type := txt ("General Legal Document"), confidence := 3/10 } ∧
    ((3 : ℚ)/10 ≤ 3/10) ∧
    FunctionApp.identifyDocumentType (txt ("")) (txt ("")) =
      { documentType := txt ("Legal Document"), confidence := 6/10,
        jurisdiction := txt ("Ontario") } ∧
    (FunctionApp.checkFieldCompleteness (txt (""))
      (txt ("Legal Document"))).score = 0 := by
  refine ⟨AIAnalyzer.classifyDocument_noHit _ _ (by decide), rfl,
    MLPlugins.classify_noHit _ (by decide) (by decide), by norm_num, rfl, ?_⟩
  have h : ((FunctionApp.documentTypes (txt ("Legal Document"))).requiredFields.filter
      fun f => FunctionApp.isFieldPresent (txt ("")) f) = [] := by decide
  simp [FunctionApp.checkFieldCompleteness, h]

/-- C6: the question `What is the purchase price?` is classified into the
financial intent, and for every analysis record whose `purchasePrice` is
populated (present and nonempty), the Markdown produced by
`generateFinancialResponse` contains that value verbatim. -/
theorem C6_purchase_price_in_answer :
    Chat.classifyQuestion (txt ("What is the purchase price?")) = txt ("financial") ∧
    (∀ (d : Chat.DocumentData) (v : List Char), d.purchasePrice = some v → v ≠ [] →
      containsSub (Chat.generateFinancialResponse (Chat.extractKeyFields d)) v = true) := by
  constructor
  · decide
  · intro d v hv hne
    have hie : v.isEmpty = false := by
      cases v with
      | nil => exact absurd rfl hne
      | cons c t => rfl
    have hts : Chat.jsTruthy (some v) = true := by
      unfold Chat.jsTruthy
      simp [hie]
    have ht : Chat.jsTruthy d.purchasePrice = true := by
      rw [hv]
      exact hts
    have hkf : (Chat.extractKeyFields d).purchasePrice = some v := by
      simp [Chat.extractKeyFields, Chat.keep, ht, hv, hts]
    have hpp : Chat.optLine (txt ("**Purchase Price**: ")) (some v) =
        txt ("**Purchase Price**: ") ++ v ++ txt ("\n\n") := by
      unfold Chat.optLine
      simp [hie]
    simp only [Chat.generateFinancialResponse, hkf]
    rw [if_neg (by simp [hts]), hpp]
    generalize Chat.optLine (txt ("**Deposit Amount**: ")) (Chat.extractKeyFields d).depositAmount
      = dp
    generalize Chat.optLine (txt ("**Rent Amount**: ")) (Chat.extractKeyFields d).rentAmount = rp
    simpa [List.append_assoc] using
      containsSub_append_self (txt ("## Financial Information\n\n") ++ txt ("**Purchase Price**: "))
        v (txt ("\n\n") ++ dp ++ rp)

/-- Concrete analysis record for the C6 witness. -/
def c6ExampleData : Chat.DocumentData where
  issueDate := none
  expiryDate := none
  jurisdiction := some (txt ("Ontario"))
  purchasePrice := some (txt ("$750,000"))
  closingDate := none
  buyerName := some (txt ("John Doe"))
  sellerName := some (txt ("Jane Smith"))
  propertyAddress := none
  depositAmount := none

/-- C6 witness: the theorem applied to a record whose purchase price is
`$750,000`. -/
theorem C6_witness :
    (c6ExampleData.purchasePrice = some (txt ("$750,000")) ∧ txt ("$750,000") ≠ []) ∧
    containsSub (Chat.generateFinancialResponse (Chat.extractKeyFields c6ExampleData))
      (txt ("$750,000")) = true :=
  ⟨⟨rfl, by decide⟩, C6_purchase_price_in_answer.2 c6ExampleData _ rfl (by decide)⟩

namespace AIAnalyzer

/-- The nine keys of the `getFieldPatterns` map. -/
def fieldPatternKeys : List (List Char) :=
  [txt ("purchasePrice"), txt ("closingDate"), txt ("buyerName"), txt ("sellerName"),
   txt ("propertyAddress"), txt ("depositAmount"), txt ("monthlyRent"), txt ("landlordName"),
   txt ("tenantName")]

end AIAnalyzer

/-- C7: the `checkDocumentValidity` of `function-app.js` appends the issue
`Missing required signature: <role>` exactly for the roles whose signature
regex does not match, and deducts exactly 20 points per such role (plus only
the independent 10-point date deduction), deducting nothing for matching
roles. -/
theorem C7_missing_signature_penalties :
    ∀ text dt : List Char,
      (FunctionApp.checkDocumentValidity text dt).issues =
        ((FunctionApp.documentTypes dt).validityRules.requiredSignatures.filter
          fun r => !FunctionApp.checkSignature text r).map
          (fun r => txt ("Missing required signature: ") ++ r) ∧
      (FunctionApp.checkDocumentValidity text dt).score =
        100 - 20 * (((FunctionApp.documentTypes dt).validityRules.requiredSignatures.filter
          fun r => !FunctionApp.checkSignature text r).length : ℤ) -
        (if Rx.itest FunctionApp.reDateWord text then 0 else 10) := by
  intro text dt
  simp only [FunctionApp.checkDocumentValidity, FunctionApp.sigFold_eq]
  constructor
  · simp
  · split_ifs <;> ring

/-- C8: no analysis operation mutates the pattern table — `learnFromAnalysis`
and the whole `analyzeDocument` pipeline leave `documentPatterns` unchanged —
and classification is a pure function of its inputs and that table: running
the pipeline (which does append to the learning history) changes no
classification result, and repeating it returns an identical analysis. -/
theorem C8_analysis_pure_and_frame :
    ∀ (now : Nat) (st : AIAnalyzer.AnalyzerState) (fn t f : List Char)
      (e : AIAnalyzer.LearnEntry),
      (AIAnalyzer.learnFromAnalysis st e).documentPatterns = st.documentPatterns ∧
      ((AIAnalyzer.analyzeDocument now st fn).2).documentPatterns = st.documentPatterns ∧
      AIAnalyzer.classifyDocument ((AIAnalyzer.analyzeDocument now st fn).2).documentPatterns
        t f = AIAnalyzer.classifyDocument st.documentPatterns t f ∧
      (AIAnalyzer.analyzeDocument now ((AIAnalyzer.analyzeDocument now st fn).2) fn).1 =
        (AIAnalyzer.analyzeDocument now st fn).1 :=
  fun _ _ _ _ _ _ => ⟨rfl, rfl, rfl, rfl⟩

/-- C9: every field name outside the hard-coded `getFieldPatterns` map falls
back to the catch-all `[/.*/i]`, which matches every text (including the
empty one), so such a field is always counted present; in particular the
`irrevocableDate` field of the APS profile is in `presentRequired` and never in
`missingRequired`, for every text. -/
theorem C9_unmapped_fields_never_missing :
    (∀ fieldName : List Char, fieldName ∉ AIAnalyzer.fieldPatternKeys →
      AIAnalyzer.getFieldPatterns fieldName = [Rx.RE.star Rx.dot]) ∧
    (∀ fieldName text : List Char, fieldName ∉ AIAnalyzer.fieldPatternKeys →
      AIAnalyzer.fieldPresent text fieldName = true) ∧
    (∀ text : List Char,
      txt ("irrevocableDate") ∈ (AIAnalyzer.analyzeFieldCompleteness
        AIAnalyzer.documentPatterns text
        (txt ("Agreement of Purchase and Sale (APS)"))).presentRequired ∧
      txt ("irrevocableDate") ∉ (AIAnalyzer.analyzeFieldCompleteness
        AIAnalyzer.documentPatterns text
        (txt ("Agreement of Purchase and Sale (APS)"))).missingRequired) := by
  have hpat : ∀ fieldName : List Char, fieldName ∉ AIAnalyzer.fieldPatternKeys →
      AIAnalyzer.getFieldPatterns fieldName = [Rx.RE.star Rx.dot] := by
    intro f hf
    simp only [AIAnalyzer.fieldPatternKeys, List.mem_cons, List.not_mem_nil, or_false,
      not_or] at hf
    obtain ⟨h1, h2, h3, h4, h5, h6, h7, h8, h9⟩ := hf
    simp [AIAnalyzer.getFieldPatterns, h1, h2, h3, h4, h5, h6, h7, h8, h9]
  have hpres : ∀ fieldName text : List Char, fieldName ∉ AIAnalyzer.fieldPatternKeys →
      AIAnalyzer.fieldPresent text fieldName = true := by
    intro f text hf
    simp [AIAnalyzer.fieldPresent, hpat f hf, Rx.itest_dotStar]
  refine ⟨hpat, hpres, ?_⟩
  intro text
  have hfind : ((AIAnalyzer.documentPatterns.map Prod.snd).find?
      fun p => p.documentType == txt ("Agreement of Purchase and Sale (APS)")) =
      some AIAnalyzer.apsProfile := rfl
  have hirr : AIAnalyzer.fieldPresent text (txt ("irrevocableDate")) = true :=
    hpres _ text (by decide)
  constructor
  · simp only [AIAnalyzer.analyzeFieldCompleteness, hfind]
    exact List.mem_filter.mpr ⟨by decide, hirr⟩
  · intro hmem
    simp only [AIAnalyzer.analyzeFieldCompleteness, hfind] at hmem
    have hcontra := (List.mem_filter.mp hmem).2
    rw [hirr] at hcontra
    simp at hcontra

/-- C9 witness: the theorem instantiated at the unmapped field
`irrevocableDate` and the empty text. -/
theorem C9_witness :
    txt ("irrevocableDate") ∉ AIAnalyzer.fieldPatternKeys ∧
    AIAnalyzer.getFieldPatterns (txt ("irrevocableDate")) = [Rx.RE.star Rx.dot] ∧
    AIAnalyzer.fieldPresent (txt ("")) (txt ("irrevocableDate")) = true ∧
    txt ("irrevocableDate") ∈ (AIAnalyzer.analyzeFieldCompleteness
      AIAnalyzer.documentPatterns (txt (""))
      (txt ("Agreement of Purchase and Sale (APS)"))).presentRequired :=
  ⟨by decide, C9_unmapped_fields_never_missing.1 _ (by decide),
   C9_unmapped_fields_never_missing.2.1 _ _ (by decide),
   (C9_unmapped_fields_never_missing.2.2 (txt (""))).1⟩

example : Rx.rtest (Rx.lit (txt ("abc"))) (txt ("xxabcy")) = true := by decide
example : Rx.rtest (Rx.lit (txt ("abc"))) (txt ("xxaby")) = false := by decide
example : Rx.itest (Rx.RE.cat (Rx.lit (txt ("a"))) (Rx.plus Rx.digit)) (txt ("zA25")) = true := by
  decide
example : containsSub (txt ("hello world")) (txt ("lo w")) = true := by decide
example : containsSub (txt ("hello")) (txt ("low")) = false := by decide
